import Mathlib

/-!
Shallow embedding of the walkpad-sync treadmill core
(`src/treadmill-sync/src/bluetooth/ftms.rs` and
`src/treadmill-sync/src/bluetooth/mod.rs`) together with theorems about the
protocol decoders, the baseline-relative delta computation, the workout
session state machine driven by `monitor_notifications`, and the
end-of-workout acceptance policy.

Modelling conventions: Rust `u8`/`u16`/`u32` counters become `Nat` (their
arithmetic in the embedded code paths never overflows their width because the
source only adds small constants like `4105` or `256` before an `i64` cast),
Rust `i64` becomes `Int`, Rust `f64` speeds/inclines become `Rat` (the source
only compares them against exact decimal thresholds), `Option<T>` becomes
`Option`, and fallible decoding returns `Except DecodeError`.  Rust slice
indexing `data[i]` is embedded as `List.get?` with a distinguished
`DecodeError.outOfBounds` error standing for a Rust panic, so panic-freedom
is a provable statement rather than a triviality.
-/

/-- Normalized reading decoded from one frame; mirrors `struct TreadmillData`
in `ftms.rs` (speed m/s, incline %, distance meters, steps, energy kcal,
heart rate bpm, times in seconds, force N, power W). -/
structure TreadmillData where
  speed : Option ℚ := none
  incline : Option ℚ := none
  distance : Option ℕ := none
  steps : Option ℕ := none
  total_energy : Option ℕ := none
  energy_per_hour : Option ℕ := none
  heart_rate : Option ℕ := none
  elapsed_time : Option ℕ := none
  remaining_time : Option ℕ := none
  force_on_belt : Option ℤ := none
  power_output : Option ℤ := none
deriving Repr, DecidableEq

/-- Mirrors `TreadmillData::default()`: every field absent. -/
def TreadmillData.empty : TreadmillData := {}

/-- Typed decode failures.  The Rust source uses `anyhow!` strings; each
distinct failure message is mapped to one constructor.  `outOfBounds` models
a Rust slice-index panic and is proved unreachable. -/
inductive DecodeError where
  | tooShort
  | notEnoughData
  | invalidSpeed
  | invalidIncline
  | invalidDistance
  | outOfBounds
deriving Repr, DecidableEq

/-- Reads byte `i` of the frame; `outOfBounds` models the panic Rust would
raise on `data[i]` past the end. -/
def readU8 (d : List ℕ) (i : ℕ) : Except DecodeError ℕ :=
  match d.get? i with
  | some v => .ok v
  | none => .error .outOfBounds

/-- Mirrors `u16::from_le_bytes([data[i], data[i+1]])`. -/
def readU16LE (d : List ℕ) (i : ℕ) : Except DecodeError ℕ := do
  let b0 ← readU8 d i
  let b1 ← readU8 d (i + 1)
  pure (b0 + 256 * b1)

/-- Mirrors `u32::from_le_bytes([data[i], data[i+1], data[i+2], 0])`. -/
def readU24LE (d : List ℕ) (i : ℕ) : Except DecodeError ℕ := do
  let b0 ← readU8 d i
  let b1 ← readU8 d (i + 1)
  let b2 ← readU8 d (i + 2)
  pure (b0 + 256 * b1 + 65536 * b2)

/-- Mirrors `i16::from_le_bytes([data[i], data[i+1]])`. -/
def readI16LE (d : List ℕ) (i : ℕ) : Except DecodeError ℤ := do
  let r ← readU16LE d i
  pure (if r < 32768 then (r : ℤ) else (r : ℤ) - 65536)

/-- Parser state threaded through the flag-driven field decoders of
`parse_treadmill_data`: current byte offset paired with the partial result. -/
abbrev PState := ℕ × TreadmillData

/-- Bit 1 of the flags word: average speed, 16-bit LE hundredths of km/h,
converted to m/s by dividing by 100 then by 3.6. -/
def parseAvgSpeed (flags : ℕ) (d : List ℕ) (st : PState) : Except DecodeError PState :=
  if flags &&& 0x0002 ≠ 0 then
    if d.length < st.1 + 2 then .error .notEnoughData
    else do
      let raw ← readU16LE d st.1
      pure (st.1 + 2, { st.2 with speed := some ((raw : ℚ) / 100 / (36 / 10)) })
  else pure st

/-- Bit 2 of the flags word: total distance, 24-bit LE, already meters. -/
def parseTotalDistance (flags : ℕ) (d : List ℕ) (st : PState) : Except DecodeError PState :=
  if flags &&& 0x0004 ≠ 0 then
    if d.length < st.1 + 3 then .error .notEnoughData
    else do
      let raw ← readU24LE d st.1
      pure (st.1 + 3, { st.2 with distance := some raw })
  else pure st

/-- Bit 3 of the flags word: inclination, 16-bit signed tenths of a percent;
the source consumes 4 bytes (inclination plus skipped ramp angle). -/
def parseInclination (flags : ℕ) (d : List ℕ) (st : PState) : Except DecodeError PState :=
  if flags &&& 0x0008 ≠ 0 then
    if d.length < st.1 + 4 then .error .notEnoughData
    else do
      let raw ← readI16LE d st.1
      pure (st.1 + 4, { st.2 with incline := some ((raw : ℚ) / 10) })
  else pure st

/-- Bit 4 of the flags word: elevation gain, 4 bytes skipped. -/
def parseElevationGain (flags : ℕ) (d : List ℕ) (st : PState) : Except DecodeError PState :=
  if flags &&& 0x0010 ≠ 0 then
    if d.length < st.1 + 4 then .error .notEnoughData
    else pure (st.1 + 4, st.2)
  else pure st

/-- Bit 5 of the flags word: instantaneous pace, 1 byte skipped. -/
def parseInstPace (flags : ℕ) (d : List ℕ) (st : PState) : Except DecodeError PState :=
  if flags &&& 0x0020 ≠ 0 then
    if d.length < st.1 + 1 then .error .notEnoughData
    else pure (st.1 + 1, st.2)
  else pure st

/-- Bit 6 of the flags word: average pace, 1 byte skipped. -/
def parseAvgPace (flags : ℕ) (d : List ℕ) (st : PState) : Except DecodeError PState :=
  if flags &&& 0x0040 ≠ 0 then
    if d.length < st.1 + 1 then .error .notEnoughData
    else pure (st.1 + 1, st.2)
  else pure st

/-- Bit 7 of the flags word: expended energy.  Total energy (2 bytes) is
mandatory once the bit is set; energy/hour (2 bytes) and the skipped
energy/minute byte are read only when enough bytes remain. -/
def parseEnergy (flags : ℕ) (d : List ℕ) (st : PState) : Except DecodeError PState :=
  if flags &&& 0x0080 ≠ 0 then
    if d.length < st.1 + 2 then .error .notEnoughData
    else do
      let e ← readU16LE d st.1
      let off := st.1 + 2
      let r := { st.2 with total_energy := some e }
      if d.length ≥ off + 2 then do
        let eph ← readU16LE d off
        let off2 := off + 2
        let r2 := { r with energy_per_hour := some eph }
        pure (if d.length ≥ off2 + 1 then off2 + 1 else off2, r2)
      else
        pure (if d.length ≥ off + 1 then off + 1 else off, r)
  else pure st

/-- Bit 8 of the flags word: heart rate, 1 byte. -/
def parseHeartRate (flags : ℕ) (d : List ℕ) (st : PState) : Except DecodeError PState :=
  if flags &&& 0x0100 ≠ 0 then
    if d.length < st.1 + 1 then .error .notEnoughData
    else do
      let hr ← readU8 d st.1
      pure (st.1 + 1, { st.2 with heart_rate := some hr })
  else pure st

/-- Bit 9 of the flags word: metabolic equivalent, 1 byte skipped. -/
def parseMetabolic (flags : ℕ) (d : List ℕ) (st : PState) : Except DecodeError PState :=
  if flags &&& 0x0200 ≠ 0 then
    if d.length < st.1 + 1 then .error .notEnoughData
    else pure (st.1 + 1, st.2)
  else pure st

/-- Bit 10 of the flags word: elapsed time, 16-bit LE seconds. -/
def parseElapsedTime (flags : ℕ) (d : List ℕ) (st : PState) : Except DecodeError PState :=
  if flags &&& 0x0400 ≠ 0 then
    if d.length < st.1 + 2 then .error .notEnoughData
    else do
      let t ← readU16LE d st.1
      pure (st.1 + 2, { st.2 with elapsed_time := some t })
  else pure st

/-- Bit 11 of the flags word: remaining time, 16-bit LE seconds. -/
def parseRemainingTime (flags : ℕ) (d : List ℕ) (st : PState) : Except DecodeError PState :=
  if flags &&& 0x0800 ≠ 0 then
    if d.length < st.1 + 2 then .error .notEnoughData
    else do
      let t ← readU16LE d st.1
      pure (st.1 + 2, { st.2 with remaining_time := some t })
  else pure st

/-- Bit 12 of the flags word: force on belt (2 bytes, mandatory once set)
followed by power output read only when enough bytes remain. -/
def parseForcePower (flags : ℕ) (d : List ℕ) (st : PState) : Except DecodeError PState :=
  if flags &&& 0x1000 ≠ 0 then
    if d.length < st.1 + 2 then .error .notEnoughData
    else do
      let f ← readI16LE d st.1
      let off := st.1 + 2
      let r := { st.2 with force_on_belt := some f }
      if d.length ≥ off + 2 then do
        let p ← readI16LE d off
        pure (off, { r with power_output := some p })
      else
        pure (off, r)
  else pure st

/-- Structural (flag-driven) part of `parse_treadmill_data`: the header check,
the little-endian flags word at bytes 0-1, and the field decoders in the
strict bit order of the source, before the sanity bounds. -/
def parseStructural (d : List ℕ) : Except DecodeError TreadmillData := do
  if d.length < 2 then .error .tooShort
  else do
    let flags ← readU16LE d 0
    let st1 ← parseAvgSpeed flags d (2, TreadmillData.empty)
    let st2 ← parseTotalDistance flags d st1
    let st3 ← parseInclination flags d st2
    let st4 ← parseElevationGain flags d st3
    let st5 ← parseInstPace flags d st4
    let st6 ← parseAvgPace flags d st5
    let st7 ← parseEnergy flags d st6
    let st8 ← parseHeartRate flags d st7
    let st9 ← parseMetabolic flags d st8
    let st10 ← parseElapsedTime flags d st9
    let st11 ← parseRemainingTime flags d st10
    let st12 ← parseForcePower flags d st11
    pure st12.2

/-- Speed outside `[0, 50]` m/s, per the post-decode sanity bounds. -/
def speedInvalid (r : TreadmillData) : Bool :=
  match r.speed with
  | some s => decide (s < 0) || decide (50 < s)
  | none => false

/-- Incline outside `[-15, 40]` %, per the post-decode sanity bounds. -/
def inclineInvalid (r : TreadmillData) : Bool :=
  match r.incline with
  | some i => decide (i < -15) || decide (40 < i)
  | none => false

/-- Heart rate outside `(0, 220]` bpm, per the post-decode sanity bounds. -/
def hrInvalid (r : TreadmillData) : Bool :=
  match r.heart_rate with
  | some h => decide (h = 0) || decide (220 < h)
  | none => false

/-- Distance above 1,000,000 m, per the post-decode sanity bounds. -/
def distanceInvalid (r : TreadmillData) : Bool :=
  match r.distance with
  | some dist => decide (1000000 < dist)
  | none => false

/-- Post-decode sanity bounds of `parse_treadmill_data`, applied in source
order: invalid speed or incline or distance is a hard decode failure; an
invalid heart rate is merely set absent. -/
def sanityCheck (r : TreadmillData) : Except DecodeError TreadmillData :=
  if speedInvalid r then .error .invalidSpeed
  else if inclineInvalid r then .error .invalidIncline
  else
    let r2 := if hrInvalid r then { r with heart_rate := none } else r
    if distanceInvalid r2 then .error .invalidDistance
    else .ok r2

/-- Mirrors `parse_treadmill_data` in `ftms.rs`: structural flag-driven
decoding followed by the sanity bounds. -/
def parse_treadmill_data (d : List ℕ) : Except DecodeError TreadmillData := do
  let r ← parseStructural d
  sanityCheck r

/-- Mirrors `enum LifeSpanQuery` in `ftms.rs`. -/
inductive LifeSpanQuery where
  | steps
  | distance
  | calories
  | speed
  | time
deriving Repr, DecidableEq

/-- Mirrors `parse_lifespan_response` in `ftms.rs`: the 4-byte minimum header
check, then per-query fixed-point decoding with per-query length guards and
range validations. -/
def parse_lifespan_response (d : List ℕ) (q : LifeSpanQuery) : Except DecodeError TreadmillData :=
  if d.length < 4 then .error .tooShort
  else
    match q with
    | .speed =>
      if d.length < 4 then .error .notEnoughData
      else do
        let b2 ← readU8 d 2
        let b3 ← readU8 d 3
        let speed_hundredths : ℚ := (b2 : ℚ) * 100 + (b3 : ℚ)
        let speed_mph := speed_hundredths / 100
        let speed_ms := speed_mph * ((44704 : ℚ) / 100000)
        if 0 ≤ speed_mph ∧ speed_mph ≤ 5 then
          pure { TreadmillData.empty with speed := some speed_ms }
        else if 5 < speed_mph then
          pure { TreadmillData.empty with speed := some speed_ms }
        else
          pure TreadmillData.empty
    | .distance =>
      if d.length < 5 then .error .notEnoughData
      else do
        let b3 ← readU8 d 3
        let b4 ← readU8 d 4
        let distance_hundredths := b3 + 256 * b4
        let distance_meters := (((distance_hundredths : ℚ) / 100) * ((160934 : ℚ) / 100)).floor.toNat
        if distance_hundredths ≤ 5000 then
          pure { TreadmillData.empty with distance := some distance_meters }
        else
          pure TreadmillData.empty
    | .calories =>
      if d.length < 5 then .error .notEnoughData
      else do
        let b3 ← readU8 d 3
        let b4 ← readU8 d 4
        let calories := b3 + 256 * b4
        if calories ≤ 5000 then
          pure { TreadmillData.empty with total_energy := some calories }
        else
          pure TreadmillData.empty
    | .steps =>
      if d.length < 5 then .error .notEnoughData
      else do
        let b3 ← readU8 d 3
        let b4 ← readU8 d 4
        pure { TreadmillData.empty with steps := some (b3 + 256 * b4) }
    | .time =>
      if d.length ≥ 6 then do
        let hours ← readU8 d 3
        let minutes ← readU8 d 4
        let seconds ← readU8 d 5
        if hours < 24 ∧ minutes < 60 ∧ seconds < 60 then
          pure { TreadmillData.empty with elapsed_time := some (hours * 3600 + minutes * 60 + seconds) }
        else
          pure TreadmillData.empty
      else
        pure TreadmillData.empty

/-- Mirrors `struct WorkoutBaseline` in `mod.rs`: cumulative counter values
captured at workout start. -/
structure WorkoutBaseline where
  start_distance : Option ℕ
  start_steps : Option ℕ
  start_calories : Option ℕ
deriving Repr, DecidableEq

/-- Delta triple (distance, steps, calories) stored by `record_sample` into
the i64 sample columns. -/
structure SampleDeltas where
  delta_distance : Option ℤ
  delta_steps : Option ℤ
  delta_calories : Option ℤ
deriving Repr, DecidableEq

/-- Mirrors the delta computation of `record_sample` in `mod.rs`: with a
baseline, distance uses `saturating_sub` with a single-wraparound branch
(gap over 1000 adds 4105 before the saturating subtraction), steps use plain
`saturating_sub`, calories use a wraparound branch (gap over 200 adds 256,
then i64 subtraction) or plain `saturating_sub`; without a baseline the raw
cumulative values are stored unchanged. -/
def computeDeltas (baseline : Option WorkoutBaseline) (data : TreadmillData) : SampleDeltas :=
  match baseline with
  | some b =>
    let delta_dist : Option ℤ :=
      match data.distance, b.start_distance with
      | some curr, some s0 =>
        if curr < s0 ∧ s0 - curr > 1000 then
          some (((curr + 4105) - s0 : ℕ) : ℤ)
        else
          some ((curr - s0 : ℕ) : ℤ)
      | _, _ => none
    let delta_step : Option ℤ :=
      match data.steps, b.start_steps with
      | some curr, some s0 => some ((curr - s0 : ℕ) : ℤ)
      | _, _ => none
    let delta_cal : Option ℤ :=
      match data.total_energy, b.start_calories with
      | some curr, some s0 =>
        if curr < s0 ∧ s0 - curr > 200 then
          some (((curr : ℤ) + 256) - (s0 : ℤ))
        else
          some ((curr - s0 : ℕ) : ℤ)
      | _, _ => none
    ⟨delta_dist, delta_step, delta_cal⟩
  | none =>
    ⟨data.distance.map (fun v => (v : ℤ)),
     data.steps.map (fun v => (v : ℤ)),
     data.total_energy.map (fun v => (v : ℤ))⟩

/-- Local mutable state of the `monitor_notifications` loop in `mod.rs`,
together with the shared `workout_baseline` (the shared
`current_workout_id` is tracked separately by the storage model below). -/
structure MonitorState where
  workout_started : Bool
  sample_count : ℕ
  zero_speed_count : ℕ
  reset_detection_count : ℕ
  last_distance : Option ℕ
  last_steps : Option ℕ
  last_calories : Option ℕ
  distance_10_samples_ago : Option ℕ
  calories_10_samples_ago : Option ℕ
  samples_since_progress_check : ℕ
  baseline : Option WorkoutBaseline
deriving Repr, DecidableEq

/-- Loop state at the top of `monitor_notifications`. -/
def MonitorState.init : MonitorState :=
  ⟨false, 0, 0, 0, none, none, none, none, none, 0, none⟩

/-- Distance reset-like test from the reset-detection block:
`current < prev.saturating_sub(10) && current != 0 && current < 100`. -/
def distanceResetLike (currOpt prevOpt : Option ℕ) : Bool :=
  match currOpt, prevOpt with
  | some curr, some prev => decide (curr < prev - 10) && decide (curr ≠ 0) && decide (curr < 100)
  | _, _ => false

/-- Calories reset-like test from the reset-detection block:
`current < prev.saturating_sub(5) && current != 0 && current < 50`. -/
def caloriesResetLike (currOpt prevOpt : Option ℕ) : Bool :=
  match currOpt, prevOpt with
  | some curr, some prev => decide (curr < prev - 5) && decide (curr ≠ 0) && decide (curr < 50)
  | _, _ => false

/-- Observable effects of processing one reading. -/
structure StepOutput where
  state : MonitorState
  endedByReset : Bool
  endedByInactivity : Bool
  startedWorkout : Bool
  recorded : Option SampleDeltas
deriving Repr, DecidableEq

/-- Loop state after `end_workout` plus the local-variable resets performed on
the reset path (every tracking field cleared). -/
def clearedAfterReset : MonitorState :=
  ⟨false, 0, 0, 0, none, none, none, none, none, 0, none⟩

/-- Reset-detection phase of the loop body (only active while a workout is
started): flags each counter as reset-like, requires both simultaneously,
counts consecutive detections, and on the third ends the workout — restarting
immediately with a fresh baseline from the current reading when its speed is
above 0.1 m/s.  Returns (state, ended-by-reset, restarted). -/
def resetPhase (s : MonitorState) (data : TreadmillData) : MonitorState × Bool × Bool :=
  if s.workout_started then
    let distance_reset := distanceResetLike data.distance s.last_distance
    let calories_reset := caloriesResetLike data.total_energy s.last_calories
    if distance_reset && calories_reset then
      let rdc := s.reset_detection_count + 1
      if rdc ≥ 3 then
        if (1 : ℚ)/10 < data.speed.getD 0 then
          ({ clearedAfterReset with
              workout_started := true,
              baseline := some ⟨data.distance, data.steps, data.total_energy⟩ }, true, true)
        else
          (clearedAfterReset, true, false)
      else
        ({ s with reset_detection_count := rdc }, false, false)
    else
      ({ s with reset_detection_count := 0 }, false, false)
  else (s, false, false)

/-- Workout-start detection phase: while idle, a reading with speed above
0.1 m/s starts a workout and captures the baseline from the current
reading. -/
def startPhase (s : MonitorState) (data : TreadmillData) : MonitorState × Bool :=
  if !s.workout_started && decide ((1 : ℚ)/10 < data.speed.getD 0) then
    ({ s with
        workout_started := true, sample_count := 0, zero_speed_count := 0,
        baseline := some ⟨data.distance, data.steps, data.total_energy⟩ }, true)
  else (s, false)

/-- Zero-glitch sanitization before `record_sample`: a cumulative field read
as 0 while a last known good value exists is replaced by that value. -/
def sanitizeData (s : MonitorState) (data : TreadmillData) : TreadmillData :=
  let d1 := if data.distance = some 0 ∧ s.last_distance.isSome then
      { data with distance := s.last_distance } else data
  let d2 := if d1.steps = some 0 ∧ s.last_steps.isSome then
      { d1 with steps := s.last_steps } else d1
  if d2.total_energy = some 0 ∧ s.last_calories.isSome then
    { d2 with total_energy := s.last_calories } else d2

/-- Sample-recording and inactivity-detection phase (only while a workout is
started): records the sanitized sample's deltas, refreshes the 10-sample
progress checkpoint, and counts consecutive inactive samples (speed below
0.1 m/s and no forward progress against the checkpoint); at the threshold `T`
the workout is ended and the tracking state cleared — except `last_steps`,
which the source omits from the inactivity-path reset.  Returns
(state, ended-by-inactivity, recorded deltas). -/
def recordPhase (T : ℕ) (s : MonitorState) (data : TreadmillData) : MonitorState × Bool × Option SampleDeltas :=
  if s.workout_started then
    let recorded := computeDeltas s.baseline (sanitizeData s data)
    let s3 := { s with sample_count := s.sample_count + 1 }
    let spc := s3.samples_since_progress_check + 1
    let s4 := if spc ≥ 10 then
        { s3 with
            distance_10_samples_ago := s3.last_distance,
            calories_10_samples_ago := s3.last_calories,
            samples_since_progress_check := 0 }
      else { s3 with samples_since_progress_check := spc }
    let has_recent_progress :=
      (match data.distance, s4.distance_10_samples_ago with
        | some curr, some old => decide (old < curr)
        | _, _ => false)
      || (match data.total_energy, s4.calories_10_samples_ago with
        | some curr, some old => decide (old < curr)
        | _, _ => false)
    let is_inactive := decide (data.speed.getD 0 < (1 : ℚ)/10) && !has_recent_progress
    if is_inactive then
      let zsc := s4.zero_speed_count + 1
      if zsc ≥ T then
        ({ s4 with
            workout_started := false, sample_count := 0, zero_speed_count := 0,
            reset_detection_count := 0, last_distance := none, last_calories := none,
            distance_10_samples_ago := none, calories_10_samples_ago := none,
            samples_since_progress_check := 0, baseline := none }, true, some recorded)
      else
        ({ s4 with zero_speed_count := zsc }, false, some recorded)
    else
      ({ s4 with zero_speed_count := 0 }, false, some recorded)
  else (s, false, none)

/-- Last-known-good tracking at the bottom of the loop body: each cumulative
field updates its `last_*` value only when the reading is non-zero or no
workout is active. -/
def updateLastPhase (s : MonitorState) (data : TreadmillData) : MonitorState :=
  let s1 := match data.distance with
    | some dist => if dist > 0 || !s.workout_started then { s with last_distance := data.distance } else s
    | none => s
  let s2 := match data.steps with
    | some st => if st > 0 || !s1.workout_started then { s1 with last_steps := data.steps } else s1
    | none => s1
  match data.total_energy with
  | some cal => if cal > 0 || !s2.workout_started then { s2 with last_calories := data.total_energy } else s2
  | none => s2

/-- One iteration of the `monitor_notifications` loop body on a decoded
reading, with inactivity threshold `T` (`workout_end_timeout_secs`):
reset detection, start detection, sample recording with inactivity
detection, then last-known-good tracking, in source order. -/
def monitorStep (T : ℕ) (s : MonitorState) (data : TreadmillData) : StepOutput :=
  let r := resetPhase s data
  let st := startPhase r.1 data
  let rec3 := recordPhase T st.1 data
  let final := updateLastPhase rec3.1 data
  { state := final
    endedByReset := r.2.1
    endedByInactivity := rec3.2.1
    startedWorkout := r.2.2 || st.2
    recorded := rec3.2.2 }

/-- Runs the loop body over a list of readings, collecting each step's
output. -/
def monitorRun (T : ℕ) (s : MonitorState) : List TreadmillData → MonitorState × List StepOutput
  | [] => (s, [])
  | d :: rest =>
    let out := monitorStep T s d
    let r := monitorRun T out.state rest
    (r.1, out :: r.2)

/-- Sequence of stored sample deltas produced by a run. -/
def recordedDeltas (T : ℕ) (s : MonitorState) (rs : List TreadmillData) : List SampleDeltas :=
  (monitorRun T s rs).2.filterMap (fun o => o.recorded)

/-- Workout row status; mirrors the status column described by the spec
(`in_progress`, `completed`, `failed`). -/
inductive WorkoutStatus where
  | in_progress
  | completed
  | failed
deriving Repr, DecidableEq

/-- Modelled from the spec: a durable Workout row, reduced to the fields the
claims inspect (id and status).  The workout-table storage layer
(`create_workout`, `get_current_workout`, `mark_workout_failed`,
`complete_workout`, `delete_workout`) called by `mod.rs` is not under
`src/`; its rows are modelled from the §3/§6 contracts. -/
structure WorkoutRow where
  id : ℕ
  status : WorkoutStatus
deriving Repr, DecidableEq

/-- Modelled from the spec: the workout table plus a fresh-id source. -/
structure WorkoutStore where
  rows : List WorkoutRow
  next_id : ℕ
deriving Repr, DecidableEq

/-- Row counts as active. -/
def isInProgressRow (r : WorkoutRow) : Bool :=
  decide (r.status = WorkoutStatus.in_progress)

/-- Number of in-progress rows in the store. -/
def countInProgress (st : WorkoutStore) : ℕ :=
  st.rows.countP isInProgressRow

/-- Modelled from the spec: `get_in_progress_session() -> Option<Session>`,
returning an in-progress row when one exists. -/
def get_current_workout (st : WorkoutStore) : Option WorkoutRow :=
  st.rows.find? isInProgressRow

/-- Modelled from the spec: `mark_failed(id, reason)` sets the row's status
to failed. -/
def mark_workout_failed (st : WorkoutStore) (id : ℕ) : WorkoutStore :=
  { st with rows := st.rows.map (fun r => if r.id = id then { r with status := .failed } else r) }

/-- Modelled from the spec: `create_session(uuid, start) -> id` inserts a new
in-progress row under a fresh id. -/
def create_workout (st : WorkoutStore) : WorkoutStore × ℕ :=
  ({ rows := st.rows ++ [⟨st.next_id, .in_progress⟩], next_id := st.next_id + 1 }, st.next_id)

/-- Modelled from the spec: `delete_session(id)` removes the row (cascading
over its samples). -/
def delete_workout (st : WorkoutStore) (id : ℕ) : WorkoutStore :=
  { st with rows := st.rows.filter (fun r => decide (r.id ≠ id)) }

/-- Modelled from the spec: `complete_session(id, ...)` sets the row's status
to completed. -/
def complete_workout (st : WorkoutStore) (id : ℕ) : WorkoutStore :=
  { st with rows := st.rows.map (fun r => if r.id = id then { r with status := .completed } else r) }

/-- Mirrors `start_workout` in `mod.rs`: any pre-existing in-progress workout
(orphan from a crash or restart) is marked failed, then a fresh workout row
is created and becomes the current workout. -/
def start_workout (st : WorkoutStore) : WorkoutStore × ℕ :=
  let st1 := match get_current_workout st with
    | some w => mark_workout_failed st w.id
    | none => st
  create_workout st1

/-- Modelled from the spec: an RFC3339 timestamp string from the samples
table, represented by the outcome of `chrono::DateTime::parse_from_rfc3339`
(`none` when the string would fail to parse, `some t` its instant in epoch
seconds). -/
structure Rfc3339String where
  parsed : Option ℤ
deriving Repr, DecidableEq

/-- Aggregation-query result used by `end_workout`; mirrors the fields of
`get_workout_aggregates` that the acceptance policy inspects. -/
structure WorkoutAggregates where
  sample_count : ℕ
  first_timestamp : Option Rfc3339String
  last_timestamp : Option Rfc3339String
  total_distance : ℤ
  total_steps : ℤ
  total_calories : ℤ
deriving Repr, DecidableEq

/-- Reason strings attached by `mark_workout_failed` calls in `end_workout`. -/
inductive FailReason where
  | aggregatesError
  | invalidTimestamps
  | missingTimestamps
  | dbError
deriving Repr, DecidableEq

/-- Terminal outcome chosen by `end_workout` for the current workout. -/
inductive EndResult where
  | deleted
  | failedWith (reason : FailReason)
  | completedOk
deriving Repr, DecidableEq

/-- Events emitted on the broadcast channel by `end_workout`. -/
inductive WorkoutEventKind where
  | workoutFailed
  | workoutCompleted
deriving Repr, DecidableEq

/-- Mirrors the control flow of `end_workout` in `mod.rs` after the current
id and baseline are cleared: aggregation failure marks the workout failed;
then, in order, zero samples, fewer than `MIN_SAMPLES = 10` samples, a
duration under `MIN_DURATION_SECONDS = 30`, and zero distance with zero
calories each delete the workout; missing or unparsable timestamps mark it
failed; otherwise it is completed (or marked failed when the completion
write itself errors, abstracted by `completeOk`). -/
def endWorkoutDecision (agg : Except Unit WorkoutAggregates) (completeOk : Bool) : EndResult :=
  match agg with
  | .error _ => .failedWith .aggregatesError
  | .ok a =>
    if a.sample_count = 0 then .deleted
    else if a.sample_count < 10 then .deleted
    else
      match a.first_timestamp, a.last_timestamp with
      | some f, some l =>
        match f.parsed, l.parsed with
        | some fts, some lts =>
          let duration := lts - fts
          if duration < 30 then .deleted
          else if a.total_distance = 0 ∧ a.total_calories = 0 then .deleted
          else if completeOk then .completedOk else .failedWith .dbError
        | _, _ => .failedWith .invalidTimestamps
      | _, _ => .failedWith .missingTimestamps

/-- Mirrors `end_workout` in `mod.rs` at the storage level: with no current
workout it is a no-op; otherwise the decision above is applied to the store,
emitting a session-failed event on every failed path and a
session-completed event on success (delete paths emit nothing). -/
def end_workout (st : WorkoutStore) (cur : Option ℕ) (agg : Except Unit WorkoutAggregates)
    (completeOk : Bool) : WorkoutStore × List WorkoutEventKind :=
  match cur with
  | none => (st, [])
  | some id =>
    match endWorkoutDecision agg completeOk with
    | .deleted => (delete_workout st id, [])
    | .failedWith _ => (mark_workout_failed st id, [.workoutFailed])
    | .completedOk => (complete_workout st id, [.workoutCompleted])

/-- One lifecycle transition of the engine against the store: a workout
start (fresh, after-reset restart, or startup orphan recovery — all run
through `start_workout`) or a workout end (normal, reset-confirmed, or
forced by connection loss — all run through `end_workout`, whose aggregation
outcome is the event's parameter). -/
inductive EngineEvent where
  | start
  | endWorkout (agg : Except Unit WorkoutAggregates) (completeOk : Bool)

/-- Applies one engine event to the store paired with the current workout
id (`current_workout_id`): starting replaces the current id with the fresh
row's id, ending clears it first and then runs the aggregation path. -/
def applyEvent (s : WorkoutStore × Option ℕ) : EngineEvent → WorkoutStore × Option ℕ
  | .start =>
    let r := start_workout s.1
    (r.1, some r.2)
  | .endWorkout agg ok =>
    let r := end_workout s.1 s.2 agg ok
    (r.1, none)

/-- Qualifying-inactive test for a reading against a state, exactly as the
loop body evaluates it: the progress checkpoint is first refreshed when the
per-10-sample counter rolls over, then the reading counts as inactive when
speed is below 0.1 m/s and neither distance nor calories moved past the
checkpoint. -/
def inactiveQualifies (s : MonitorState) (data : TreadmillData) : Bool :=
  let spc := s.samples_since_progress_check + 1
  let chk_dist := if spc ≥ 10 then s.last_distance else s.distance_10_samples_ago
  let chk_cal := if spc ≥ 10 then s.last_calories else s.calories_10_samples_ago
  let has_recent_progress :=
    (match data.distance, chk_dist with
      | some curr, some old => decide (old < curr)
      | _, _ => false)
    || (match data.total_energy, chk_cal with
      | some curr, some old => decide (old < curr)
      | _, _ => false)
  decide (data.speed.getD 0 < (1 : ℚ)/10) && !has_recent_progress

/-- Stated from the spec's words for claim C2 (refinement comparison, not
from the source): delta = current − baseline.start, with the counter's
modulus added before subtracting exactly when current < baseline.start and
the gap exceeds the counter-specific threshold. -/
def claimedDelta (modulus threshold curr s0 : ℕ) : ℤ :=
  if curr < s0 ∧ s0 - curr > threshold then (curr : ℤ) + (modulus : ℤ) - (s0 : ℤ)
  else (curr : ℤ) - (s0 : ℤ)

/-- Reading whose cumulative fields are each absent or read as exactly 0 —
the glitch shape claim C4 injects. -/
def cumFieldsZeroOrAbsent (z : TreadmillData) : Prop :=
  (z.distance = none ∨ z.distance = some 0)
  ∧ (z.steps = none ∨ z.steps = some 0)
  ∧ (z.total_energy = none ∨ z.total_energy = some 0)

/-- Demo reading opening a workout: moving at 1 m/s with counters at
50 m / 100 steps / 5 kcal. -/
def startReading : TreadmillData :=
  { TreadmillData.empty with
      speed := some 1, distance := some 50, steps := some 100, total_energy := some 5 }

/-- Demo second reading: counters advanced to 60 m / 110 steps / 6 kcal. -/
def secondReading : TreadmillData :=
  { TreadmillData.empty with
      speed := some 1, distance := some 60, steps := some 110, total_energy := some 6 }

/-- Demo glitch reading: still moving, every cumulative counter read as 0. -/
def zeroGlitchReading : TreadmillData :=
  { TreadmillData.empty with
      speed := some 1, distance := some 0, steps := some 0, total_energy := some 0 }

/-- Demo third reading: counters advanced to 70 m / 120 steps / 7 kcal. -/
def thirdReading : TreadmillData :=
  { TreadmillData.empty with
      speed := some 1, distance := some 70, steps := some 120, total_energy := some 7 }

/-- Demo active state two qualifying reset readings into a streak: last known
distance 500 m and calories 40 kcal. -/
def resetDemoState : MonitorState :=
  ⟨true, 5, 0, 2, some 500, some 1000, some 40, some 400, some 30, 3,
   some ⟨some 10, some 20, some 2⟩⟩

/-- Demo reading completing the reset streak: both counters near zero while
the belt still moves at 1 m/s. -/
def resetDemoReading : TreadmillData :=
  { TreadmillData.empty with
      speed := some 1, distance := some 50, steps := some 7, total_energy := some 20 }

/-- Demo active state three inactive samples into the inactivity window. -/
def inactiveDemoState : MonitorState :=
  ⟨true, 20, 3, 0, some 500, some 1000, some 40, some 500, some 40, 3,
   some ⟨some 10, some 20, some 2⟩⟩

/-- Demo reading with the belt stopped and no counter progress. -/
def inactiveDemoReading : TreadmillData :=
  { TreadmillData.empty with
      speed := some 0, distance := some 500, steps := some 1000, total_energy := some 40 }

/-- Demo FTMS frame from the source's unit test: flags 0x0086 (speed,
distance, energy), speed raw 1000, distance 100 m, energy 10 kcal,
energy/hour 100. -/
def demoFrame : List ℕ :=
  [0x86, 0x00, 0xE8, 0x03, 0x64, 0x00, 0x00, 0x0A, 0x00, 0x64, 0x00]

/-- Reading decoded from `demoFrame`: raw speed 1000 (10 km/h, i.e.
25/9 m/s), written with the decoder's own conversion expression. -/
def demoParsed : TreadmillData :=
  { TreadmillData.empty with
      speed := some (((1000 : ℕ) : ℚ) / 100 / (36 / 10)), distance := some 100,
      total_energy := some 10, energy_per_hour := some 100 }

/-- Demo store holding one orphaned in-progress workout. -/
def demoStore : WorkoutStore := ⟨[⟨0, .in_progress⟩], 1⟩

/-- Demo aggregates of a 5-sample session with non-zero distance and
calories. -/
def fiveSampleAgg : WorkoutAggregates :=
  ⟨5, some ⟨some 0⟩, some ⟨some 100⟩, 250, 300, 12⟩

/-- Demo lifecycle: orphan recovery plus a fresh start, a rejected
(too-few-samples) end, another start and a completed end. -/
def demoEvents : List EngineEvent :=
  [.start, .endWorkout (.ok fiveSampleAgg) true, .start,
   .endWorkout (.ok ⟨40, some ⟨some 0⟩, some ⟨some 120⟩, 900, 1200, 45⟩) true]

/-- Single-step characterization of the reset path (claim C1): the step ends
the workout by reset exactly when both counters are reset-like against the
last known good values and the consecutive-detection counter reaches 3; a
non-qualifying reading clears the streak; a qualifying reading below the
threshold increments the streak without ending; and a confirmed reset
restarts immediately with a fresh baseline from the current reading exactly
when its speed is above 0.1 m/s. -/
def ResetPathProp (T : ℕ) (s : MonitorState) (data : TreadmillData) : Prop :=
  ((monitorStep T s data).endedByReset = true ↔
    distanceResetLike data.distance s.last_distance = true ∧
    caloriesResetLike data.total_energy s.last_calories = true ∧
    3 ≤ s.reset_detection_count + 1)
  ∧ (¬(distanceResetLike data.distance s.last_distance = true ∧
        caloriesResetLike data.total_energy s.last_calories = true) →
      (monitorStep T s data).state.reset_detection_count = 0)
  ∧ (distanceResetLike data.distance s.last_distance = true →
      caloriesResetLike data.total_energy s.last_calories = true →
      s.reset_detection_count + 1 < 3 →
      (monitorStep T s data).endedByReset = false ∧
      ((monitorStep T s data).endedByInactivity = false →
        (monitorStep T s data).state.reset_detection_count = s.reset_detection_count + 1))
  ∧ ((monitorStep T s data).endedByReset = true →
      (1 : ℚ)/10 < data.speed.getD 0 →
      (monitorStep T s data).startedWorkout = true ∧
      (monitorStep T s data).state.workout_started = true ∧
      (monitorStep T s data).state.baseline =
        some ⟨data.distance, data.steps, data.total_energy⟩)
  ∧ ((monitorStep T s data).endedByReset = true →
      data.speed.getD 0 ≤ (1 : ℚ)/10 →
      (monitorStep T s data).state.workout_started = false ∧
      (monitorStep T s data).state.baseline = none)

/-- Single-step characterization of the inactivity path (claim C3): the step
ends the workout by the normal path exactly when the reading qualifies as
inactive and the consecutive-inactivity counter reaches the threshold `T`;
below the threshold the counter increments without ending; a non-qualifying
reading clears the counter; and the normal end leaves the machine idle with
the baseline destroyed. -/
def InactivityProp (T : ℕ) (s : MonitorState) (data : TreadmillData) : Prop :=
  ((monitorStep T s data).endedByInactivity = true ↔
    inactiveQualifies s data = true ∧ T ≤ s.zero_speed_count + 1)
  ∧ (inactiveQualifies s data = true → s.zero_speed_count + 1 < T →
      (monitorStep T s data).endedByInactivity = false ∧
      (monitorStep T s data).state.zero_speed_count = s.zero_speed_count + 1)
  ∧ (inactiveQualifies s data = false →
      (monitorStep T s data).endedByInactivity = false ∧
      (monitorStep T s data).state.zero_speed_count = 0)
  ∧ ((monitorStep T s data).endedByInactivity = true →
      (monitorStep T s data).state.workout_started = false ∧
      (monitorStep T s data).state.baseline = none)

/-- Amended glitch-idempotence property (claim C4): a zero-glitch reading
leaves every last-known-good value, the baseline and the active flag
unchanged, and the deltas recorded for the following reading are identical
with or without the glitch in between. -/
def ZeroGlitchProp (T : ℕ) (s : MonitorState) (z r : TreadmillData) : Prop :=
  ((monitorStep T s z).state.last_distance = s.last_distance
   ∧ (monitorStep T s z).state.last_steps = s.last_steps
   ∧ (monitorStep T s z).state.last_calories = s.last_calories
   ∧ (monitorStep T s z).state.baseline = s.baseline
   ∧ (monitorStep T s z).state.workout_started = true)
  ∧ (monitorStep T (monitorStep T s z).state r).recorded = (monitorStep T s r).recorded

/-- Post-decode sanity property (claim C8) for a frame the structural parser
accepts with reading `r`: the full decoder fails exactly when speed,
incline, or distance is out of bounds, and otherwise succeeds with an
out-of-range heart rate set absent. -/
def SanityBoundsProp (d : List ℕ) (r : TreadmillData) : Prop :=
  ((∃ e, parse_treadmill_data d = .error e) ↔
    speedInvalid r = true ∨ inclineInvalid r = true ∨ distanceInvalid r = true)
  ∧ (speedInvalid r = false → inclineInvalid r = false → distanceInvalid r = false →
      parse_treadmill_data d =
        .ok (if hrInvalid r then { r with heart_rate := none } else r))

/-- Demo active state mid-session: baseline 50 m / 100 steps / 5 kcal, last
known good values 60 m / 110 steps / 6 kcal. -/
def glitchDemoState : MonitorState :=
  ⟨true, 2, 0, 0, some 60, some 110, some 6, some 50, some 5, 2,
   some ⟨some 50, some 100, some 5⟩⟩

/-- Claim C9: when `record_sample` runs for an active workout with no
baseline set, the reading's raw cumulative distance, steps and calories are
stored unchanged as the sample's delta fields — no baseline subtraction and
no wraparound compensation. -/
theorem record_sample_no_baseline_raw (data : TreadmillData) :
    (computeDeltas none data).delta_distance = data.distance.map (fun v => (v : ℤ))
    ∧ (computeDeltas none data).delta_steps = data.steps.map (fun v => (v : ℤ))
    ∧ (computeDeltas none data).delta_calories = data.total_energy.map (fun v => (v : ℤ)) :=
  ⟨rfl, rfl, rfl⟩

/-- Claim C10: stored distance and steps deltas are never negative
(saturating subtraction in every branch), while the calories wrap branch
stores `current + 256 − baseline` as a signed value: baseline 400 with
current 100 stores −44. -/
theorem delta_sign_behaviour :
    (∀ (b : Option WorkoutBaseline) (data : TreadmillData) (z : ℤ),
        ((computeDeltas b data).delta_distance = some z → 0 ≤ z)
      ∧ ((computeDeltas b data).delta_steps = some z → 0 ≤ z))
  ∧ (computeDeltas (some ⟨some 0, some 0, some 400⟩)
      { TreadmillData.empty with total_energy := some 100 }).delta_calories = some (-44) := by
  refine ⟨fun b data z => ⟨?_, ?_⟩, by decide⟩
  · intro h
    rcases b with _ | b
    · rcases hd : data.distance with _ | v
      · simp [computeDeltas, hd] at h
      · simp [computeDeltas, hd] at h
        omega
    · rcases hd : data.distance with _ | v
      · simp [computeDeltas, hd] at h
      · rcases hs : b.start_distance with _ | v0
        · simp [computeDeltas, hd, hs] at h
        · simp only [computeDeltas, hd, hs] at h
          split at h <;> simp only [Option.some.injEq] at h <;> omega
  · intro h
    rcases b with _ | b
    · rcases hd : data.steps with _ | v
      · simp [computeDeltas, hd] at h
      · simp [computeDeltas, hd] at h
        omega
    · rcases hd : data.steps with _ | v
      · simp [computeDeltas, hd] at h
      · rcases hs : b.start_steps with _ | v0
        · simp [computeDeltas, hd, hs] at h
        · simp only [computeDeltas, hd, hs, Option.some.injEq] at h
          omega

/-- Claim C2 counterexample: with baseline distance 100 and a current reading
of 50 (a drop below the wraparound threshold), the code stores a saturated
delta of 0, while the claim's formula `current − baseline.start` gives
−50. -/
theorem record_sample_delta_counterexample :
    (computeDeltas (some ⟨some 100, some 0, some 0⟩)
      { TreadmillData.empty with distance := some 50 }).delta_distance = some 0
    ∧ claimedDelta 4105 1000 50 100 = -50 := by
  refine ⟨by decide, by decide⟩

/-- Claim C2 as amended: deltas follow the claimed `current − baseline.start`
formula with wraparound compensation, except that the subtractions saturate
at zero — distance and steps always, calories only outside its wrap branch
(threshold 200, modulus 256, where the signed value is stored exactly).
The claim's concrete examples hold: baseline 50 with readings 50, 60, 70
yields 0, 10, 20, and baseline 4000 with reading 50 yields 155. -/
theorem record_sample_delta_amended :
    (∀ (b : WorkoutBaseline) (data : TreadmillData) (curr s0 : ℕ),
        data.distance = some curr → b.start_distance = some s0 →
        (computeDeltas (some b) data).delta_distance =
          some (max 0 (claimedDelta 4105 1000 curr s0)))
  ∧ (∀ (b : WorkoutBaseline) (data : TreadmillData) (curr s0 : ℕ),
        data.total_energy = some curr → b.start_calories = some s0 →
        (computeDeltas (some b) data).delta_calories =
          some (if curr < s0 ∧ s0 - curr > 200 then claimedDelta 256 200 curr s0
                else max 0 (claimedDelta 256 200 curr s0)))
  ∧ (∀ (b : WorkoutBaseline) (data : TreadmillData) (curr s0 : ℕ),
        data.steps = some curr → b.start_steps = some s0 →
        (computeDeltas (some b) data).delta_steps = some (max 0 ((curr : ℤ) - (s0 : ℤ))))
  ∧ ((computeDeltas (some ⟨some 50, some 0, some 0⟩)
        { TreadmillData.empty with distance := some 50 }).delta_distance = some 0
     ∧ (computeDeltas (some ⟨some 50, some 0, some 0⟩)
        { TreadmillData.empty with distance := some 60 }).delta_distance = some 10
     ∧ (computeDeltas (some ⟨some 50, some 0, some 0⟩)
        { TreadmillData.empty with distance := some 70 }).delta_distance = some 20)
  ∧ (computeDeltas (some ⟨some 4000, some 0, some 0⟩)
      { TreadmillData.empty with distance := some 50 }).delta_distance = some 155 := by
  refine ⟨?_, ?_, ?_, by decide, by decide⟩
  · intro b data curr s0 hd hs
    simp only [computeDeltas, hd, hs, claimedDelta]
    split <;> simp only [Option.some.injEq, sup_eq_max] <;> omega
  · intro b data curr s0 hd hs
    simp only [computeDeltas, hd, hs, claimedDelta]
    split <;> simp only [Option.some.injEq, sup_eq_max] <;> omega
  · intro b data curr s0 hd hs
    simp only [computeDeltas, hd, hs, Option.some.injEq, sup_eq_max]
    omega

/-- Claim C6: on session end the acceptance checks run in order (sample
count below 10, then duration below 30 s, then zero distance and zero
calories), every failing check deletes the workout (never marks it failed)
— in particular a 5-sample session is deleted even with non-zero totals;
aggregation failure or unparsable/missing timestamps mark the workout
failed and emit a session-failed event; and a fully passing session is
completed. -/
theorem end_workout_acceptance_policy :
    (∀ (a : WorkoutAggregates) (ok : Bool), a.sample_count < 10 →
        endWorkoutDecision (.ok a) ok = .deleted)
  ∧ (∀ (a : WorkoutAggregates) (ok : Bool) (f l : Rfc3339String) (fts lts : ℤ),
        10 ≤ a.sample_count → a.first_timestamp = some f → a.last_timestamp = some l →
        f.parsed = some fts → l.parsed = some lts → lts - fts < 30 →
        endWorkoutDecision (.ok a) ok = .deleted)
  ∧ (∀ (a : WorkoutAggregates) (ok : Bool) (f l : Rfc3339String) (fts lts : ℤ),
        10 ≤ a.sample_count → a.first_timestamp = some f → a.last_timestamp = some l →
        f.parsed = some fts → l.parsed = some lts → 30 ≤ lts - fts →
        a.total_distance = 0 → a.total_calories = 0 →
        endWorkoutDecision (.ok a) ok = .deleted)
  ∧ (∀ (ok : Bool) (e : Unit),
        endWorkoutDecision (.error e) ok = .failedWith .aggregatesError)
  ∧ (∀ (a : WorkoutAggregates) (ok : Bool) (f l : Rfc3339String),
        10 ≤ a.sample_count → a.first_timestamp = some f → a.last_timestamp = some l →
        (f.parsed = none ∨ l.parsed = none) →
        endWorkoutDecision (.ok a) ok = .failedWith .invalidTimestamps)
  ∧ (∀ (a : WorkoutAggregates) (ok : Bool),
        10 ≤ a.sample_count → (a.first_timestamp = none ∨ a.last_timestamp = none) →
        endWorkoutDecision (.ok a) ok = .failedWith .missingTimestamps)
  ∧ (∀ (a : WorkoutAggregates) (f l : Rfc3339String) (fts lts : ℤ),
        10 ≤ a.sample_count → a.first_timestamp = some f → a.last_timestamp = some l →
        f.parsed = some fts → l.parsed = some lts → 30 ≤ lts - fts →
        ¬(a.total_distance = 0 ∧ a.total_calories = 0) →
        endWorkoutDecision (.ok a) true = .completedOk)
  ∧ (∀ (st : WorkoutStore) (id : ℕ) (agg : Except Unit WorkoutAggregates) (ok : Bool),
        endWorkoutDecision agg ok = .deleted →
        end_workout st (some id) agg ok = (delete_workout st id, []))
  ∧ (∀ (st : WorkoutStore) (id : ℕ) (agg : Except Unit WorkoutAggregates) (ok : Bool)
        (reason : FailReason),
        endWorkoutDecision agg ok = .failedWith reason →
        end_workout st (some id) agg ok = (mark_workout_failed st id, [.workoutFailed])) := by
  refine ⟨?_, ?_, ?_, ?_, ?_, ?_, ?_, ?_, ?_⟩
  · intro a ok h
    unfold endWorkoutDecision
    by_cases h0 : a.sample_count = 0
    · simp [h0]
    · simp only [h0, if_false]
      rw [if_pos h]
  · intro a ok f l fts lts h10 hf hl hfp hlp hdur
    unfold endWorkoutDecision
    have h0 : ¬a.sample_count = 0 := by omega
    have hn10 : ¬a.sample_count < 10 := by omega
    simp only [h0, hn10, if_false, hf, hl, hfp, hlp]
    rw [if_pos hdur]
  · intro a ok f l fts lts h10 hf hl hfp hlp hdur hd0 hc0
    unfold endWorkoutDecision
    have h0 : ¬a.sample_count = 0 := by omega
    have hn10 : ¬a.sample_count < 10 := by omega
    have hnd : ¬(lts - fts < 30) := by omega
    simp only [h0, hn10, if_false, hf, hl, hfp, hlp]
    rw [if_neg hnd, if_pos ⟨hd0, hc0⟩]
  · intro ok e
    rfl
  · intro a ok f l h10 hf hl hno
    unfold endWorkoutDecision
    have h0 : ¬a.sample_count = 0 := by omega
    have hn10 : ¬a.sample_count < 10 := by omega
    rcases hno with hfp | hlp
    · rcases hq : l.parsed with _ | lv <;> simp [h0, hn10, hf, hl, hfp, hq]
    · rcases hq : f.parsed with _ | fv <;> simp [h0, hn10, hf, hl, hlp, hq]
  · intro a ok h10 hno
    unfold endWorkoutDecision
    have h0 : ¬a.sample_count = 0 := by omega
    have hn10 : ¬a.sample_count < 10 := by omega
    rcases hno with hfp | hlp
    · rcases hq : a.last_timestamp with _ | lv <;> simp [h0, hn10, hfp, hq]
    · rcases hq : a.first_timestamp with _ | fv <;> simp [h0, hn10, hlp, hq]
  · intro a f l fts lts h10 hf hl hfp hlp hdur hnz
    unfold endWorkoutDecision
    have h0 : ¬a.sample_count = 0 := by omega
    have hn10 : ¬a.sample_count < 10 := by omega
    have hnd : ¬(lts - fts < 30) := by omega
    simp only [h0, hn10, if_false, hf, hl, hfp, hlp]
    rw [if_neg hnd, if_neg hnz]
    rfl
  · intro st id agg ok hdec
    unfold end_workout
    rw [hdec]
  · intro st id agg ok reason hdec
    unfold end_workout
    rw [hdec]

/-- Witness for C6: a 5-sample session with non-zero distance and calories
is deleted. -/
theorem end_workout_acceptance_policy_witness :
    fiveSampleAgg.sample_count < 10 ∧
    endWorkoutDecision (.ok fiveSampleAgg) true = .deleted :=
  ⟨by decide, end_workout_acceptance_policy.1 fiveSampleAgg true (by decide)⟩

/-- Helper: marking the found in-progress workout failed clears every
in-progress row when the store held at most one. -/
theorem countP_mark_found_zero (rows : List WorkoutRow) (w : WorkoutRow)
    (hfind : rows.find? isInProgressRow = some w)
    (hle : rows.countP isInProgressRow ≤ 1) :
    (rows.map (fun r => if r.id = w.id then { r with status := WorkoutStatus.failed } else r)).countP
      isInProgressRow = 0 := by
  induction rows with
  | nil => simp at hfind
  | cons r t ih =>
    by_cases hr : isInProgressRow r = true
    · rw [List.find?_cons_of_pos _ hr] at hfind
      injection hfind with hw
      subst hw
      rw [List.countP_cons] at hle
      have ht : t.countP isInProgressRow = 0 := by
        simp only [hr, if_true] at hle
        omega
      rw [List.map_cons, List.countP_cons, if_pos rfl]
      have hmapped : ∀ x ∈ t.map (fun q =>
          if q.id = r.id then { q with status := WorkoutStatus.failed } else q),
          ¬isInProgressRow x = true := by
        intro x hx
        obtain ⟨y, hy, hxy⟩ := List.mem_map.mp hx
        have hyn : ¬isInProgressRow y = true := by
          have := List.countP_eq_zero.mp ht
          exact this y hy
        by_cases hid : y.id = r.id
        · rw [if_pos hid] at hxy
          subst hxy
          simp [isInProgressRow]
        · rw [if_neg hid] at hxy
          subst hxy
          exact hyn
      rw [List.countP_eq_zero.mpr hmapped]
      simp [isInProgressRow]
    · rw [List.find?_cons_of_neg _ hr] at hfind
      rw [List.countP_cons] at hle
      rw [List.map_cons, List.countP_cons]
      have hhead : ¬isInProgressRow (if r.id = w.id then
          { r with status := WorkoutStatus.failed } else r) = true := by
        by_cases hid : r.id = w.id
        · rw [if_pos hid]
          simp [isInProgressRow]
        · rw [if_neg hid]
          exact hr
      rw [ih hfind (by simp only [hr, if_false] at hle; omega)]
      simp [hhead]

/-- Helper: after `start_workout` exactly one in-progress row remains,
provided the store held at most one before. -/
theorem countInProgress_start (st : WorkoutStore) (h : countInProgress st ≤ 1) :
    countInProgress (start_workout st).1 = 1 := by
  unfold start_workout
  cases hf : get_current_workout st with
  | none =>
    have h0 : st.rows.countP isInProgressRow = 0 := by
      rw [List.countP_eq_zero]
      intro r hr
      have := List.find?_eq_none.mp hf r hr
      simpa using this
    simp [create_workout, countInProgress, List.countP_append, h0, isInProgressRow]
  | some w =>
    have h0 := countP_mark_found_zero st.rows w hf h
    simp [create_workout, mark_workout_failed, countInProgress, List.countP_append, h0,
      isInProgressRow]

/-- Helper: `end_workout` never increases the number of in-progress rows. -/
theorem countInProgress_end_le (st : WorkoutStore) (cur : Option ℕ)
    (agg : Except Unit WorkoutAggregates) (ok : Bool) :
    countInProgress (end_workout st cur agg ok).1 ≤ countInProgress st := by
  unfold end_workout
  cases cur with
  | none => simp
  | some id =>
    have hmap : ∀ (f : WorkoutRow → WorkoutStatus),
        (st.rows.map (fun r => if r.id = id then { r with status := f r } else r)).countP
          isInProgressRow ≤ st.rows.countP isInProgressRow → True := fun _ _ => trivial
    cases hdec : endWorkoutDecision agg ok with
    | deleted =>
      simp only [delete_workout, countInProgress]
      rw [List.countP_filter]
      exact List.countP_mono_left (fun a _ hpa => by
        simp only [Bool.and_eq_true] at hpa
        exact hpa.1)
    | failedWith reason =>
      simp only [mark_workout_failed, countInProgress]
      rw [List.countP_map]
      refine List.countP_mono_left (fun a _ hpa => ?_)
      simp only [Function.comp] at hpa
      by_cases hid : a.id = id
      · rw [if_pos hid] at hpa
        simp [isInProgressRow] at hpa
      · rwa [if_neg hid] at hpa
    | completedOk =>
      simp only [complete_workout, countInProgress]
      rw [List.countP_map]
      refine List.countP_mono_left (fun a _ hpa => ?_)
      simp only [Function.comp] at hpa
      by_cases hid : a.id = id
      · rw [if_pos hid] at hpa
        simp [isInProgressRow] at hpa
      · rwa [if_neg hid] at hpa

/-- Helper: one engine transition preserves the at-most-one invariant. -/
theorem applyEvent_preserves (s : WorkoutStore × Option ℕ) (e : EngineEvent)
    (h : countInProgress s.1 ≤ 1) : countInProgress (applyEvent s e).1 ≤ 1 := by
  cases e with
  | start =>
    have := countInProgress_start s.1 h
    simpa [applyEvent] using le_of_eq this
  | endWorkout agg ok =>
    exact le_trans (countInProgress_end_le s.1 s.2 agg ok) h

/-- Claim C5: after any sequence of workout start and end transitions —
including forced end on connection loss and the orphan recovery performed by
`start_workout` — at most one workout row has status in_progress at any
inspected instant, provided the store began with at most one. -/
theorem at_most_one_in_progress (events : List EngineEvent)
    (init : WorkoutStore × Option ℕ) (h : countInProgress init.1 ≤ 1) :
    countInProgress (events.foldl applyEvent init).1 ≤ 1 := by
  induction events generalizing init with
  | nil => simpa using h
  | cons e rest ih =>
    rw [List.foldl_cons]
    exact ih (applyEvent init e) (applyEvent_preserves init e h)

/-- Witness for C5: the demo lifecycle (orphan recovery, a rejected end, a
completed end) keeps at most one in-progress row. -/
theorem at_most_one_in_progress_witness :
    countInProgress demoStore ≤ 1 ∧
    countInProgress ((demoEvents.foldl applyEvent (demoStore, none)).1) ≤ 1 :=
  ⟨by decide, at_most_one_in_progress demoEvents (demoStore, none) (by decide)⟩

/-- Helper: a guarded byte read succeeds. -/
theorem readU8_ok (d : List ℕ) (i : ℕ) (h : i < d.length) :
    ∃ v, readU8 d i = .ok v := by
  refine ⟨d.get ⟨i, h⟩, ?_⟩
  unfold readU8
  rw [List.get?_eq_get h]

/-- Helper: a guarded 16-bit read succeeds. -/
theorem readU16LE_ok (d : List ℕ) (i : ℕ) (h : i + 1 < d.length) :
    ∃ v, readU16LE d i = .ok v := by
  obtain ⟨b0, h0⟩ := readU8_ok d i (by omega)
  obtain ⟨b1, h1⟩ := readU8_ok d (i + 1) h
  refine ⟨b0 + 256 * b1, ?_⟩
  unfold readU16LE
  simp only [h0, h1]
  rfl

/-- Helper: a guarded 24-bit read succeeds. -/
theorem readU24LE_ok (d : List ℕ) (i : ℕ) (h : i + 2 < d.length) :
    ∃ v, readU24LE d i = .ok v := by
  obtain ⟨b0, h0⟩ := readU8_ok d i (by omega)
  obtain ⟨b1, h1⟩ := readU8_ok d (i + 1) (by omega)
  obtain ⟨b2, h2⟩ := readU8_ok d (i + 2) h
  refine ⟨b0 + 256 * b1 + 65536 * b2, ?_⟩
  unfold readU24LE
  simp only [h0, h1, h2]
  rfl

/-- Helper: a guarded signed 16-bit read succeeds. -/
theorem readI16LE_ok (d : List ℕ) (i : ℕ) (h : i + 1 < d.length) :
    ∃ v, readI16LE d i = .ok v := by
  obtain ⟨r, hr⟩ := readU16LE_ok d i h
  refine ⟨if r < 32768 then (r : ℤ) else (r : ℤ) - 65536, ?_⟩
  unfold readI16LE
  simp only [hr]
  rfl

/-- Helper: binding panic-free computations is panic-free. -/
theorem bind_no_oob {α β : Type} {x : Except DecodeError α}
    {f : α → Except DecodeError β} (hx : x ≠ .error .outOfBounds)
    (hf : ∀ a, f a ≠ .error .outOfBounds) :
    (x >>= f) ≠ .error .outOfBounds := by
  cases x with
  | error e => simpa [Bind.bind, Except.bind] using hx
  | ok a => simpa [Bind.bind, Except.bind] using hf a

/-- Helper: the speed field decoder never reads out of bounds. -/
theorem parseAvgSpeed_no_oob (flags : ℕ) (d : List ℕ) (st : PState) :
    parseAvgSpeed flags d st ≠ .error .outOfBounds := by
  unfold parseAvgSpeed
  split
  · split
    · simp
    · rename_i hlen
      obtain ⟨v, hv⟩ := readU16LE_ok d st.1 (by omega)
      simp [hv, Bind.bind, Except.bind, pure, Except.pure]
  · simp [pure, Except.pure]

/-- Helper: the distance field decoder never reads out of bounds. -/
theorem parseTotalDistance_no_oob (flags : ℕ) (d : List ℕ) (st : PState) :
    parseTotalDistance flags d st ≠ .error .outOfBounds := by
  unfold parseTotalDistance
  split
  · split
    · simp
    · rename_i hlen
      obtain ⟨v, hv⟩ := readU24LE_ok d st.1 (by omega)
      simp [hv, Bind.bind, Except.bind, pure, Except.pure]
  · simp [pure, Except.pure]

/-- Helper: the inclination field decoder never reads out of bounds. -/
theorem parseInclination_no_oob (flags : ℕ) (d : List ℕ) (st : PState) :
    parseInclination flags d st ≠ .error .outOfBounds := by
  unfold parseInclination
  split
  · split
    · simp
    · rename_i hlen
      obtain ⟨v, hv⟩ := readI16LE_ok d st.1 (by omega)
      simp [hv, Bind.bind, Except.bind, pure, Except.pure]
  · simp [pure, Except.pure]

/-- Helper: the elevation-gain skip never reads out of bounds. -/
theorem parseElevationGain_no_oob (flags : ℕ) (d : List ℕ) (st : PState) :
    parseElevationGain flags d st ≠ .error .outOfBounds := by
  unfold parseElevationGain
  split
  · split <;> simp [pure, Except.pure]
  · simp [pure, Except.pure]

/-- Helper: the instantaneous-pace skip never reads out of bounds. -/
theorem parseInstPace_no_oob (flags : ℕ) (d : List ℕ) (st : PState) :
    parseInstPace flags d st ≠ .error .outOfBounds := by
  unfold parseInstPace
  split
  · split <;> simp [pure, Except.pure]
  · simp [pure, Except.pure]

/-- Helper: the average-pace skip never reads out of bounds. -/
theorem parseAvgPace_no_oob (flags : ℕ) (d : List ℕ) (st : PState) :
    parseAvgPace flags d st ≠ .error .outOfBounds := by
  unfold parseAvgPace
  split
  · split <;> simp [pure, Except.pure]
  · simp [pure, Except.pure]

/-- Helper: the energy field decoder never reads out of bounds. -/
theorem parseEnergy_no_oob (flags : ℕ) (d : List ℕ) (st : PState) :
    parseEnergy flags d st ≠ .error .outOfBounds := by
  unfold parseEnergy
  split
  · split
    · simp
    · rename_i hlen
      obtain ⟨v, hv⟩ := readU16LE_ok d st.1 (by omega)
      simp only [hv, Bind.bind, Except.bind]
      split
      · rename_i hlen2
        obtain ⟨v2, hv2⟩ := readU16LE_ok d (st.1 + 2) (by omega)
        simp [hv2, Bind.bind, Except.bind, pure, Except.pure]
      · simp [pure, Except.pure]
  · simp [pure, Except.pure]

/-- Helper: the heart-rate field decoder never reads out of bounds. -/
theorem parseHeartRate_no_oob (flags : ℕ) (d : List ℕ) (st : PState) :
    parseHeartRate flags d st ≠ .error .outOfBounds := by
  unfold parseHeartRate
  split
  · split
    · simp
    · rename_i hlen
      obtain ⟨v, hv⟩ := readU8_ok d st.1 (by omega)
      simp [hv, Bind.bind, Except.bind, pure, Except.pure]
  · simp [pure, Except.pure]

/-- Helper: the metabolic-equivalent skip never reads out of bounds. -/
theorem parseMetabolic_no_oob (flags : ℕ) (d : List ℕ) (st : PState) :
    parseMetabolic flags d st ≠ .error .outOfBounds := by
  unfold parseMetabolic
  split
  · split <;> simp [pure, Except.pure]
  · simp [pure, Except.pure]

/-- Helper: the elapsed-time field decoder never reads out of bounds. -/
theorem parseElapsedTime_no_oob (flags : ℕ) (d : List ℕ) (st : PState) :
    parseElapsedTime flags d st ≠ .error .outOfBounds := by
  unfold parseElapsedTime
  split
  · split
    · simp
    · rename_i hlen
      obtain ⟨v, hv⟩ := readU16LE_ok d st.1 (by omega)
      simp [hv, Bind.bind, Except.bind, pure, Except.pure]
  · simp [pure, Except.pure]

/-- Helper: the remaining-time field decoder never reads out of bounds. -/
theorem parseRemainingTime_no_oob (flags : ℕ) (d : List ℕ) (st : PState) :
    parseRemainingTime flags d st ≠ .error .outOfBounds := by
  unfold parseRemainingTime
  split
  · split
    · simp
    · rename_i hlen
      obtain ⟨v, hv⟩ := readU16LE_ok d st.1 (by omega)
      simp [hv, Bind.bind, Except.bind, pure, Except.pure]
  · simp [pure, Except.pure]

/-- Helper: the force/power field decoder never reads out of bounds. -/
theorem parseForcePower_no_oob (flags : ℕ) (d : List ℕ) (st : PState) :
    parseForcePower flags d st ≠ .error .outOfBounds := by
  unfold parseForcePower
  split
  · split
    · simp
    · rename_i hlen
      obtain ⟨v, hv⟩ := readI16LE_ok d st.1 (by omega)
      simp only [hv, Bind.bind, Except.bind]
      split
      · rename_i hlen2
        obtain ⟨v2, hv2⟩ := readI16LE_ok d (st.1 + 2) (by omega)
        simp [hv2, Bind.bind, Except.bind, pure, Except.pure]
      · simp [pure, Except.pure]
  · simp [pure, Except.pure]

/-- Helper: the structural push-protocol parser never reads out of bounds. -/
theorem parseStructural_no_oob (d : List ℕ) :
    parseStructural d ≠ .error .outOfBounds := by
  unfold parseStructural
  split
  · simp
  · rename_i hlen
    obtain ⟨flags, hf⟩ := readU16LE_ok d 0 (by omega)
    simp only [hf, Bind.bind, Except.bind]
    refine bind_no_oob (parseAvgSpeed_no_oob _ _ _) (fun st1 => ?_)
    refine bind_no_oob (parseTotalDistance_no_oob _ _ _) (fun st2 => ?_)
    refine bind_no_oob (parseInclination_no_oob _ _ _) (fun st3 => ?_)
    refine bind_no_oob (parseElevationGain_no_oob _ _ _) (fun st4 => ?_)
    refine bind_no_oob (parseInstPace_no_oob _ _ _) (fun st5 => ?_)
    refine bind_no_oob (parseAvgPace_no_oob _ _ _) (fun st6 => ?_)
    refine bind_no_oob (parseEnergy_no_oob _ _ _) (fun st7 => ?_)
    refine bind_no_oob (parseHeartRate_no_oob _ _ _) (fun st8 => ?_)
    refine bind_no_oob (parseMetabolic_no_oob _ _ _) (fun st9 => ?_)
    refine bind_no_oob (parseElapsedTime_no_oob _ _ _) (fun st10 => ?_)
    refine bind_no_oob (parseRemainingTime_no_oob _ _ _) (fun st11 => ?_)
    refine bind_no_oob (parseForcePower_no_oob _ _ _) (fun st12 => ?_)
    simp [pure, Except.pure]

/-- Helper: the sanity-bound stage never reads out of bounds. -/
theorem sanityCheck_no_oob (r : TreadmillData) :
    sanityCheck r ≠ .error .outOfBounds := by
  unfold sanityCheck
  split
  · simp
  · split
    · simp
    · split
      all_goals
        dsimp only
        split <;> simp

/-- Helper: the full push-protocol decoder never reads out of bounds. -/
theorem parse_treadmill_data_no_oob (d : List ℕ) :
    parse_treadmill_data d ≠ .error .outOfBounds := by
  unfold parse_treadmill_data
  exact bind_no_oob (parseStructural_no_oob d) (fun r => sanityCheck_no_oob r)

/-- Helper: the polling-protocol decoder never reads out of bounds. -/
theorem parse_lifespan_response_no_oob (d : List ℕ) (q : LifeSpanQuery) :
    parse_lifespan_response d q ≠ .error .outOfBounds := by
  unfold parse_lifespan_response
  split
  · simp
  · rename_i hlen
    split
    · obtain ⟨b2, h2⟩ := readU8_ok d 2 (by omega)
      obtain ⟨b3, h3⟩ := readU8_ok d 3 (by omega)
      simp only [h2, h3, Bind.bind, Except.bind]
      split
      · simp [pure, Except.pure]
      · split <;> simp [pure, Except.pure]
    · split
      · simp
      · rename_i hlen2
        obtain ⟨b3, h3⟩ := readU8_ok d 3 (by omega)
        obtain ⟨b4, h4⟩ := readU8_ok d 4 (by omega)
        simp only [h3, h4, Bind.bind, Except.bind]
        split <;> simp [pure, Except.pure]
    · split
      · simp
      · rename_i hlen2
        obtain ⟨b3, h3⟩ := readU8_ok d 3 (by omega)
        obtain ⟨b4, h4⟩ := readU8_ok d 4 (by omega)
        simp only [h3, h4, Bind.bind, Except.bind]
        split <;> simp [pure, Except.pure]
    · split
      · simp
      · rename_i hlen2
        obtain ⟨b3, h3⟩ := readU8_ok d 3 (by omega)
        obtain ⟨b4, h4⟩ := readU8_ok d 4 (by omega)
        simp only [h3, h4, Bind.bind, Except.bind]
        simp [pure, Except.pure]
    · split
      · rename_i hlen2
        obtain ⟨b3, h3⟩ := readU8_ok d 3 (by omega)
        obtain ⟨b4, h4⟩ := readU8_ok d 4 (by omega)
        obtain ⟨b5, h5⟩ := readU8_ok d 5 (by omega)
        simp only [h3, h4, h5, Bind.bind, Except.bind]
        split <;> simp [pure, Except.pure]
      · simp [pure, Except.pure]

/-- Claim C7: both decoders are total — for every input byte sequence they
never hit an out-of-bounds read (the embedded image of a Rust panic) and
always return a reading or a typed decode failure; a push-protocol frame
under 2 bytes and a polling-protocol frame under 4 bytes fail with the
too-short error, for every query tag. -/
theorem decoders_total :
    (∀ d : List ℕ, parse_treadmill_data d ≠ .error .outOfBounds)
  ∧ (∀ (d : List ℕ) (q : LifeSpanQuery),
      parse_lifespan_response d q ≠ .error .outOfBounds)
  ∧ (∀ d : List ℕ, d.length < 2 → parse_treadmill_data d = .error .tooShort)
  ∧ (∀ (d : List ℕ) (q : LifeSpanQuery), d.length < 4 →
      parse_lifespan_response d q = .error .tooShort) := by
  refine ⟨parse_treadmill_data_no_oob, parse_lifespan_response_no_oob, ?_, ?_⟩
  · intro d h
    unfold parse_treadmill_data parseStructural
    rw [if_pos h]
    rfl
  · intro d q h
    unfold parse_lifespan_response
    rw [if_pos h]

/-- Witness for C7: the empty push frame and a 1-byte polling frame fail
with the too-short error. -/
theorem decoders_total_witness :
    ([] : List ℕ).length < 2
    ∧ parse_treadmill_data [] = .error .tooShort
    ∧ ([0xA1] : List ℕ).length < 4
    ∧ parse_lifespan_response [0xA1] .speed = .error .tooShort :=
  ⟨by decide, decoders_total.2.2.1 [] (by decide), by decide,
   decoders_total.2.2.2 [0xA1] .speed (by decide)⟩

/-- Helper: clearing the heart-rate field does not affect the distance
bound. -/
theorem distanceInvalid_hr_none (r : TreadmillData) :
    distanceInvalid { r with heart_rate := none } = distanceInvalid r := rfl

/-- Claim C8: for every frame accepted by the structural parser, the sanity
bounds make the full decoder fail hard exactly when speed, incline or
distance is out of range, while an out-of-range heart rate is merely set
absent in the returned reading. -/
theorem ftms_sanity_bounds (d : List ℕ) (r : TreadmillData)
    (h : parseStructural d = .ok r) : SanityBoundsProp d r := by
  have hparse : parse_treadmill_data d = sanityCheck r := by
    unfold parse_treadmill_data
    rw [h]
    rfl
  unfold SanityBoundsProp
  rw [hparse]
  unfold sanityCheck
  cases hs : speedInvalid r <;> cases hi : inclineInvalid r <;>
    cases hd : distanceInvalid r <;> cases hh : hrInvalid r <;>
      simp [hs, hi, hd, hh, distanceInvalid_hr_none]

/-- Witness for C8: the source's unit-test frame decodes structurally to
`demoParsed`, which is within every sanity bound. -/
theorem ftms_sanity_bounds_witness :
    parseStructural demoFrame = .ok demoParsed
    ∧ SanityBoundsProp demoFrame demoParsed :=
  ⟨by rfl, ftms_sanity_bounds demoFrame demoParsed (by rfl)⟩

/-- Helper: the reset phase is a no-op while idle. -/
theorem resetPhase_idle (s : MonitorState) (data : TreadmillData)
    (h : s.workout_started = false) : resetPhase s data = (s, false, false) := by
  unfold resetPhase
  rw [h]
  simp

/-- Helper: a non-qualifying reading clears the reset streak. -/
theorem resetPhase_not_qualifying (s : MonitorState) (data : TreadmillData)
    (hact : s.workout_started = true)
    (hq : (distanceResetLike data.distance s.last_distance &&
           caloriesResetLike data.total_energy s.last_calories) = false) :
    resetPhase s data = ({ s with reset_detection_count := 0 }, false, false) := by
  unfold resetPhase
  rw [hact]
  simp [hq]

/-- Helper: a qualifying reading below the streak threshold increments the
streak without ending the workout. -/
theorem resetPhase_qualifying_below (s : MonitorState) (data : TreadmillData)
    (hact : s.workout_started = true)
    (hq : (distanceResetLike data.distance s.last_distance &&
           caloriesResetLike data.total_energy s.last_calories) = true)
    (hc : s.reset_detection_count + 1 < 3) :
    resetPhase s data =
      ({ s with reset_detection_count := s.reset_detection_count + 1 }, false, false) := by
  unfold resetPhase
  rw [hact]
  have h3 : ¬(s.reset_detection_count + 1 ≥ 3) := by omega
  simp [hq, h3]

/-- Helper: the third qualifying reading confirms the reset and restarts
immediately when the current speed is above 0.1 m/s. -/
theorem resetPhase_confirm_restart (s : MonitorState) (data : TreadmillData)
    (hact : s.workout_started = true)
    (hq : (distanceResetLike data.distance s.last_distance &&
           caloriesResetLike data.total_energy s.last_calories) = true)
    (hc : 3 ≤ s.reset_detection_count + 1)
    (hs : (1 : ℚ)/10 < data.speed.getD 0) :
    resetPhase s data =
      ({ clearedAfterReset with
          workout_started := true,
          baseline := some ⟨data.distance, data.steps, data.total_energy⟩ }, true, true) := by
  unfold resetPhase
  rw [hact]
  rw [one_div] at hs
  simp [hq, hc, hs]

/-- Helper: the third qualifying reading confirms the reset and leaves the
machine idle when the current speed is at most 0.1 m/s. -/
theorem resetPhase_confirm_stop (s : MonitorState) (data : TreadmillData)
    (hact : s.workout_started = true)
    (hq : (distanceResetLike data.distance s.last_distance &&
           caloriesResetLike data.total_energy s.last_calories) = true)
    (hc : 3 ≤ s.reset_detection_count + 1)
    (hs : ¬((1 : ℚ)/10 < data.speed.getD 0)) :
    resetPhase s data = (clearedAfterReset, true, false) := by
  unfold resetPhase
  rw [hact]
  have hs2 : data.speed.getD 0 ≤ (10 : ℚ)⁻¹ := by
    rw [← one_div]
    exact not_lt.mp hs
  simp [hq, hc, hs2]

/-- Helper: the start phase is a no-op while a workout is active. -/
theorem startPhase_active (s : MonitorState) (data : TreadmillData)
    (h : s.workout_started = true) : startPhase s data = (s, false) := by
  unfold startPhase
  rw [h]
  simp

/-- Helper: last-known-good tracking never touches the control fields. -/
theorem updateLastPhase_preserves (s : MonitorState) (data : TreadmillData) :
    (updateLastPhase s data).workout_started = s.workout_started
    ∧ (updateLastPhase s data).reset_detection_count = s.reset_detection_count
    ∧ (updateLastPhase s data).baseline = s.baseline
    ∧ (updateLastPhase s data).zero_speed_count = s.zero_speed_count := by
  unfold updateLastPhase
  rcases hd : data.distance with _ | v <;>
    rcases hs : data.steps with _ | w <;>
      rcases hc : data.total_energy with _ | u <;>
        simp only [hd, hs, hc] <;> (repeat' split) <;> simp

/-- Helper: while a workout is active, a reading whose cumulative fields are
absent or zero leaves every last-known-good value unchanged. -/
theorem updateLastPhase_zero_glitch (s : MonitorState) (z : TreadmillData)
    (hact : s.workout_started = true) (hz : cumFieldsZeroOrAbsent z) :
    (updateLastPhase s z).last_distance = s.last_distance
    ∧ (updateLastPhase s z).last_steps = s.last_steps
    ∧ (updateLastPhase s z).last_calories = s.last_calories := by
  obtain ⟨hzd, hzs, hzc⟩ := hz
  unfold updateLastPhase
  rcases hzd with h1 | h1 <;> rcases hzs with h2 | h2 <;> rcases hzc with h3 | h3 <;>
    simp [h1, h2, h3, hact]

/-- Helper: the record phase is a no-op while idle. -/
theorem recordPhase_idle (T : ℕ) (s : MonitorState) (data : TreadmillData)
    (h : s.workout_started = false) : recordPhase T s data = (s, false, none) := by
  unfold recordPhase
  rw [h]
  simp

/-- Helper: the inactivity-end flag fires exactly when the reading qualifies
as inactive and the incremented counter reaches the threshold. -/
theorem recordPhase_flag (T : ℕ) (s : MonitorState) (data : TreadmillData)
    (hact : s.workout_started = true) :
    (recordPhase T s data).2.1 =
      (inactiveQualifies s data && decide (T ≤ s.zero_speed_count + 1)) := by
  unfold recordPhase inactiveQualifies
  rw [hact]
  by_cases hspc : s.samples_since_progress_check + 1 ≥ 10 <;>
    simp only [hspc, ge_iff_le, if_true, if_false, ite_true, ite_false] <;>
    split <;> rename_i hq <;>
      simp only [hq, Bool.true_and, Bool.false_and] <;>
      (split <;> rename_i hT
       · simp [decide_eq_true_eq, hT]
       · simp [hT])

/-- Helper: while active, the step always records the sanitized reading's
deltas against the current baseline. -/
theorem recordPhase_recorded (T : ℕ) (s : MonitorState) (data : TreadmillData)
    (hact : s.workout_started = true) :
    (recordPhase T s data).2.2 = some (computeDeltas s.baseline (sanitizeData s data)) := by
  unfold recordPhase
  rw [hact]
  by_cases hspc : s.samples_since_progress_check + 1 ≥ 10 <;>
    simp only [hspc, ge_iff_le, if_true, if_false, ite_true, ite_false] <;>
    (repeat' split) <;> rfl

/-- Helper: a qualifying-inactive reading below the threshold increments the
inactivity counter and leaves the control fields alone. -/
theorem recordPhase_below (T : ℕ) (s : MonitorState) (data : TreadmillData)
    (hact : s.workout_started = true) (hq : inactiveQualifies s data = true)
    (hT : s.zero_speed_count + 1 < T) :
    (recordPhase T s data).1.zero_speed_count = s.zero_speed_count + 1
    ∧ (recordPhase T s data).1.reset_detection_count = s.reset_detection_count
    ∧ (recordPhase T s data).1.workout_started = true
    ∧ (recordPhase T s data).1.baseline = s.baseline
    ∧ (recordPhase T s data).1.last_distance = s.last_distance
    ∧ (recordPhase T s data).1.last_steps = s.last_steps
    ∧ (recordPhase T s data).1.last_calories = s.last_calories
    ∧ (recordPhase T s data).2.1 = false := by
  unfold recordPhase
  rw [hact]
  unfold inactiveQualifies at hq
  have hTn : ¬(s.zero_speed_count + 1 ≥ T) := by omega
  by_cases hspc : s.samples_since_progress_check + 1 ≥ 10 <;>
    simp only [hspc, ge_iff_le, if_true, if_false, ite_true, ite_false] at hq ⊢ <;>
    (simp at hq; simp [hq, hTn])

/-- Helper: a non-qualifying reading clears the inactivity counter and
leaves the control fields alone. -/
theorem recordPhase_not_qual (T : ℕ) (s : MonitorState) (data : TreadmillData)
    (hact : s.workout_started = true) (hq : inactiveQualifies s data = false) :
    (recordPhase T s data).1.zero_speed_count = 0
    ∧ (recordPhase T s data).1.reset_detection_count = s.reset_detection_count
    ∧ (recordPhase T s data).1.workout_started = true
    ∧ (recordPhase T s data).1.baseline = s.baseline
    ∧ (recordPhase T s data).1.last_distance = s.last_distance
    ∧ (recordPhase T s data).1.last_steps = s.last_steps
    ∧ (recordPhase T s data).1.last_calories = s.last_calories
    ∧ (recordPhase T s data).2.1 = false := by
  unfold recordPhase
  rw [hact]
  unfold inactiveQualifies at hq
  by_cases hspc : s.samples_since_progress_check + 1 ≥ 10 <;>
    simp only [hspc, ge_iff_le, if_true, if_false, ite_true, ite_false] at hq ⊢ <;>
    (rw [hq]; simp)

/-- Helper: a qualifying-inactive reading at the threshold ends the workout,
clearing the active flag, the baseline and the counters. -/
theorem recordPhase_end (T : ℕ) (s : MonitorState) (data : TreadmillData)
    (hact : s.workout_started = true) (hq : inactiveQualifies s data = true)
    (hT : T ≤ s.zero_speed_count + 1) :
    (recordPhase T s data).1.workout_started = false
    ∧ (recordPhase T s data).1.baseline = none
    ∧ (recordPhase T s data).1.zero_speed_count = 0
    ∧ (recordPhase T s data).1.reset_detection_count = 0
    ∧ (recordPhase T s data).2.1 = true := by
  unfold recordPhase
  rw [hact]
  unfold inactiveQualifies at hq
  by_cases hspc : s.samples_since_progress_check + 1 ≥ 10 <;>
    simp only [hspc, ge_iff_le, if_true, if_false, ite_true, ite_false] at hq ⊢ <;>
    (simp at hq; simp [hq, hT])

/-- Helper: a reading faster than 0.1 m/s never qualifies as inactive. -/
theorem inactiveQualifies_fast (s : MonitorState) (data : TreadmillData)
    (hs : (1 : ℚ)/10 < data.speed.getD 0) : inactiveQualifies s data = false := by
  unfold inactiveQualifies
  have hd : decide (data.speed.getD 0 < (1 : ℚ)/10) = false := decide_eq_false (lt_asymm hs)
  simp only [hd, Bool.false_and]

/-- Claim C1: while a session is active the engine ends it via the reset
path exactly when 3 consecutive readings satisfy, simultaneously for both
counters, the per-counter reset-like predicates; any non-qualifying reading
clears the streak, a one-counter drop never ends the session, and a
confirmed reset restarts immediately with a fresh baseline exactly when the
current speed is above 0.1 m/s. -/
theorem reset_path_characterization (T : ℕ) (s : MonitorState) (data : TreadmillData)
    (hact : s.workout_started = true) : ResetPathProp T s data := by
  unfold ResetPathProp
  by_cases hq : (distanceResetLike data.distance s.last_distance &&
      caloriesResetLike data.total_energy s.last_calories) = true
  · by_cases h3 : 3 ≤ s.reset_detection_count + 1
    · by_cases hs : (1 : ℚ)/10 < data.speed.getD 0
      · -- confirmed reset, immediate restart
        have hR := resetPhase_confirm_restart s data hact hq h3 hs
        have hflagR : (monitorStep T s data).endedByReset = true := by
          simp only [monitorStep, hR]
        have hSW : (monitorStep T s data).startedWorkout = true := by
          simp only [monitorStep, hR, Bool.true_or]
        have hSP : startPhase ({ clearedAfterReset with
            workout_started := true,
            baseline := some ⟨data.distance, data.steps, data.total_energy⟩ }) data =
            (({ clearedAfterReset with
                workout_started := true,
                baseline := some ⟨data.distance, data.steps, data.total_energy⟩ }), false) :=
          startPhase_active _ _ rfl
        have hstate : (monitorStep T s data).state =
            updateLastPhase (recordPhase T ({ clearedAfterReset with
              workout_started := true,
              baseline := some ⟨data.distance, data.steps, data.total_energy⟩ }) data).1 data := by
          simp only [monitorStep, hR, hSP]
        have hnq : inactiveQualifies ({ clearedAfterReset with
            workout_started := true,
            baseline := some ⟨data.distance, data.steps, data.total_energy⟩ }) data = false :=
          inactiveQualifies_fast _ _ hs
        have hrec := recordPhase_not_qual T ({ clearedAfterReset with
            workout_started := true,
            baseline := some ⟨data.distance, data.steps, data.total_energy⟩ }) data rfl hnq
        have hup := updateLastPhase_preserves (recordPhase T ({ clearedAfterReset with
            workout_started := true,
            baseline := some ⟨data.distance, data.steps, data.total_energy⟩ }) data).1 data
        refine ⟨?_, ?_, ?_, ?_, ?_⟩
        · rw [hflagR]
          refine iff_of_true rfl ?_
          rw [Bool.and_eq_true] at hq
          exact ⟨hq.1, hq.2, h3⟩
        · intro hcon
          rw [Bool.and_eq_true] at hq
          exact absurd ⟨hq.1, hq.2⟩ hcon
        · intro _ _ hlt
          omega
        · intro _ _
          refine ⟨hSW, ?_, ?_⟩
          · rw [hstate, hup.1]
            exact hrec.2.2.1
          · rw [hstate, hup.2.2.1]
            exact hrec.2.2.2.1
        · intro _ hle
          exact absurd hs (not_lt.mpr hle)
      · -- confirmed reset, machine left idle
        have hR := resetPhase_confirm_stop s data hact hq h3 hs
        have hflagR : (monitorStep T s data).endedByReset = true := by
          simp only [monitorStep, hR]
        have hSP : startPhase clearedAfterReset data = (clearedAfterReset, false) := by
          unfold startPhase
          have hd : decide ((1 : ℚ)/10 < data.speed.getD 0) = false := decide_eq_false hs
          simp only [hd, Bool.and_false]
          simp
        have hstate : (monitorStep T s data).state =
            updateLastPhase (recordPhase T clearedAfterReset data).1 data := by
          simp only [monitorStep, hR, hSP]
        have hrec : recordPhase T clearedAfterReset data = (clearedAfterReset, false, none) :=
          recordPhase_idle T clearedAfterReset data rfl
        have hup := updateLastPhase_preserves clearedAfterReset data
        refine ⟨?_, ?_, ?_, ?_, ?_⟩
        · rw [hflagR]
          refine iff_of_true rfl ?_
          rw [Bool.and_eq_true] at hq
          exact ⟨hq.1, hq.2, h3⟩
        · intro hcon
          rw [Bool.and_eq_true] at hq
          exact absurd ⟨hq.1, hq.2⟩ hcon
        · intro _ _ hlt
          omega
        · intro _ hgt
          exact absurd hgt hs
        · intro _ _
          rw [hstate, hrec]
          exact ⟨hup.1, hup.2.2.1⟩
    · -- qualifying but streak below 3
      have hR := resetPhase_qualifying_below s data hact hq (by omega)
      have hflagR : (monitorStep T s data).endedByReset = false := by
        simp only [monitorStep, hR]
      have hSP : startPhase ({ s with
          reset_detection_count := s.reset_detection_count + 1 }) data =
          (({ s with reset_detection_count := s.reset_detection_count + 1 }), false) :=
        startPhase_active _ _ hact
      have hstate : (monitorStep T s data).state =
          updateLastPhase (recordPhase T ({ s with
            reset_detection_count := s.reset_detection_count + 1 }) data).1 data := by
        simp only [monitorStep, hR, hSP]
      have hflagI : (monitorStep T s data).endedByInactivity =
          (recordPhase T ({ s with
            reset_detection_count := s.reset_detection_count + 1 }) data).2.1 := by
        simp only [monitorStep, hR, hSP]
      have hup := updateLastPhase_preserves (recordPhase T ({ s with
          reset_detection_count := s.reset_detection_count + 1 }) data).1 data
      refine ⟨?_, ?_, ?_, ?_, ?_⟩
      · rw [hflagR]
        refine iff_of_false (by simp) ?_
        intro hcon
        exact h3 hcon.2.2
      · intro hcon
        rw [Bool.and_eq_true] at hq
        exact absurd ⟨hq.1, hq.2⟩ hcon
      · intro _ _ _
        refine ⟨hflagR, ?_⟩
        intro hnoI
        rw [hflagI] at hnoI
        rw [hstate, hup.2.1]
        by_cases hqi : inactiveQualifies ({ s with
            reset_detection_count := s.reset_detection_count + 1 }) data = true
        · by_cases hT2 : T ≤ s.zero_speed_count + 1
          · have := (recordPhase_end T ({ s with
                reset_detection_count := s.reset_detection_count + 1 }) data hact hqi hT2).2.2.2.2
            rw [this] at hnoI
            cases hnoI
          · have := recordPhase_below T ({ s with
                reset_detection_count := s.reset_detection_count + 1 }) data hact hqi
              (show s.zero_speed_count + 1 < T by omega)
            exact this.2.1
        · have := recordPhase_not_qual T ({ s with
              reset_detection_count := s.reset_detection_count + 1 }) data hact
              (Bool.eq_false_iff.mpr hqi)
          exact this.2.1
      · intro hcon _
        rw [hflagR] at hcon
        cases hcon
      · intro hcon _
        rw [hflagR] at hcon
        cases hcon
  · -- non-qualifying reading
    have hq2 : (distanceResetLike data.distance s.last_distance &&
        caloriesResetLike data.total_energy s.last_calories) = false :=
      Bool.eq_false_iff.mpr hq
    have hR := resetPhase_not_qualifying s data hact hq2
    have hflagR : (monitorStep T s data).endedByReset = false := by
      simp only [monitorStep, hR]
    have hSP : startPhase ({ s with reset_detection_count := 0 }) data =
        (({ s with reset_detection_count := 0 }), false) :=
      startPhase_active _ _ hact
    have hstate : (monitorStep T s data).state =
        updateLastPhase (recordPhase T ({ s with
          reset_detection_count := 0 }) data).1 data := by
      simp only [monitorStep, hR, hSP]
    have hup := updateLastPhase_preserves (recordPhase T ({ s with
        reset_detection_count := 0 }) data).1 data
    refine ⟨?_, ?_, ?_, ?_, ?_⟩
    · rw [hflagR]
      refine iff_of_false (by simp) ?_
      intro hcon
      exact hq (by rw [hcon.1, hcon.2.1]; rfl)
    · intro _
      rw [hstate, hup.2.1]
      by_cases hqi : inactiveQualifies ({ s with reset_detection_count := 0 }) data = true
      · by_cases hT2 : T ≤ s.zero_speed_count + 1
        · exact (recordPhase_end T ({ s with reset_detection_count := 0 }) data hact
            hqi hT2).2.2.2.1
        · exact (recordPhase_below T ({ s with reset_detection_count := 0 }) data hact hqi
            (show s.zero_speed_count + 1 < T by omega)).2.1
      · exact (recordPhase_not_qual T ({ s with reset_detection_count := 0 }) data hact
          (Bool.eq_false_iff.mpr hqi)).2.1
    · intro hd hc _
      exact absurd (by rw [hd, hc]; rfl) hq
    · intro hcon _
      rw [hflagR] at hcon
      cases hcon
    · intro hcon _
      rw [hflagR] at hcon
      cases hcon

/-- Helper: when a step does not end by reset, the reset phase only adjusted
the streak counter. -/
theorem resetPhase_no_end_form (T : ℕ) (s : MonitorState) (data : TreadmillData)
    (hact : s.workout_started = true)
    (hnr : (monitorStep T s data).endedByReset = false) :
    ∃ c, resetPhase s data = ({ s with reset_detection_count := c }, false, false) := by
  by_cases hq : (distanceResetLike data.distance s.last_distance &&
      caloriesResetLike data.total_energy s.last_calories) = true
  · by_cases h3 : 3 ≤ s.reset_detection_count + 1
    · exfalso
      by_cases hs : (1 : ℚ)/10 < data.speed.getD 0
      · have hR := resetPhase_confirm_restart s data hact hq h3 hs
        have : (monitorStep T s data).endedByReset = true := by
          simp only [monitorStep, hR]
        rw [this] at hnr
        cases hnr
      · have hR := resetPhase_confirm_stop s data hact hq h3 hs
        have : (monitorStep T s data).endedByReset = true := by
          simp only [monitorStep, hR]
        rw [this] at hnr
        cases hnr
    · exact ⟨s.reset_detection_count + 1, resetPhase_qualifying_below s data hact hq (by omega)⟩
  · exact ⟨0, resetPhase_not_qualifying s data hact (Bool.eq_false_iff.mpr hq)⟩

/-- Claim C3: with inactivity threshold `T`, an active session ends by the
normal path exactly after `T` consecutive qualifying-inactive samples; a
qualifying sample below the threshold only increments the counter, a
non-qualifying sample resets the counter to 0, and the normal end leaves
the machine idle with the baseline destroyed. -/
theorem inactivity_hysteresis (T : ℕ) (s : MonitorState) (data : TreadmillData)
    (hact : s.workout_started = true)
    (hnr : (monitorStep T s data).endedByReset = false) : InactivityProp T s data := by
  obtain ⟨c, hR⟩ := resetPhase_no_end_form T s data hact hnr
  have hSP : startPhase ({ s with reset_detection_count := c }) data =
      (({ s with reset_detection_count := c }), false) :=
    startPhase_active _ _ hact
  have hstate : (monitorStep T s data).state =
      updateLastPhase (recordPhase T ({ s with reset_detection_count := c }) data).1 data := by
    simp only [monitorStep, hR, hSP]
  have hflagI : (monitorStep T s data).endedByInactivity =
      (recordPhase T ({ s with reset_detection_count := c }) data).2.1 := by
    simp only [monitorStep, hR, hSP]
  have hup := updateLastPhase_preserves
    (recordPhase T ({ s with reset_detection_count := c }) data).1 data
  have hflag := recordPhase_flag T ({ s with reset_detection_count := c }) data hact
  unfold InactivityProp
  refine ⟨?_, ?_, ?_, ?_⟩
  · rw [hflagI, hflag]
    simp only [Bool.and_eq_true, decide_eq_true_eq]
    exact Iff.rfl
  · intro hqi hT2
    have hb := recordPhase_below T ({ s with reset_detection_count := c }) data hact hqi hT2
    refine ⟨?_, ?_⟩
    · rw [hflagI]
      exact hb.2.2.2.2.2.2.2
    · rw [hstate, hup.2.2.2]
      exact hb.1
  · intro hqi
    have hb := recordPhase_not_qual T ({ s with reset_detection_count := c }) data hact hqi
    refine ⟨?_, ?_⟩
    · rw [hflagI]
      exact hb.2.2.2.2.2.2.2
    · rw [hstate, hup.2.2.2]
      exact hb.1
  · intro hend
    rw [hflagI, hflag] at hend
    rw [Bool.and_eq_true, decide_eq_true_eq] at hend
    have he := recordPhase_end T ({ s with reset_detection_count := c }) data hact hend.1 hend.2
    refine ⟨?_, ?_⟩
    · rw [hstate, hup.1]
      exact he.1
    · rw [hstate, hup.2.2.1]
      exact he.2.1

/-- Helper: sanitization only depends on the last-known-good values. -/
theorem sanitizeData_congr (s1 s2 : MonitorState) (data : TreadmillData)
    (h1 : s1.last_distance = s2.last_distance) (h2 : s1.last_steps = s2.last_steps)
    (h3 : s1.last_calories = s2.last_calories) :
    sanitizeData s1 data = sanitizeData s2 data := by
  unfold sanitizeData
  rw [h1, h2, h3]

/-- Helper: a step that does not end by reset records the sanitized
reading's deltas against the pre-step baseline. -/
theorem monitorStep_recorded (T : ℕ) (s : MonitorState) (data : TreadmillData)
    (hact : s.workout_started = true)
    (hnr : (monitorStep T s data).endedByReset = false) :
    (monitorStep T s data).recorded =
      some (computeDeltas s.baseline (sanitizeData s data)) := by
  obtain ⟨c, hR⟩ := resetPhase_no_end_form T s data hact hnr
  have hSP := startPhase_active ({ s with reset_detection_count := c }) data hact
  have h1 : (monitorStep T s data).recorded =
      (recordPhase T ({ s with reset_detection_count := c }) data).2.2 := by
    simp only [monitorStep, hR, hSP]
  rw [h1, recordPhase_recorded T ({ s with reset_detection_count := c }) data hact]
  exact rfl

/-- Claim C4 as amended: a zero-glitch reading during an active session
leaves every last-known-good value, the baseline and the active flag
unchanged, and — provided the glitch does not trip the inactivity end and
the following reading does not confirm a reset — the deltas recorded for
the following reading are identical with or without the glitch; the glitch
itself, however, still records one extra sample. -/
theorem zero_glitch_amended (T : ℕ) (s : MonitorState) (z r : TreadmillData)
    (hact : s.workout_started = true) (hz : cumFieldsZeroOrAbsent z)
    (hnoEnd : (monitorStep T s z).endedByInactivity = false)
    (hnoReset : (monitorStep T s r).endedByReset = false) :
    ZeroGlitchProp T s z r := by
  have hdz : distanceResetLike z.distance s.last_distance = false := by
    rcases hz.1 with h | h <;> cases hsd : s.last_distance <;>
      simp [distanceResetLike, h, hsd]
  have hqz : (distanceResetLike z.distance s.last_distance &&
      caloriesResetLike z.total_energy s.last_calories) = false := by
    rw [hdz]
    rfl
  have hRz := resetPhase_not_qualifying s z hact hqz
  have hSPz := startPhase_active ({ s with reset_detection_count := 0 }) z hact
  have hstatez : (monitorStep T s z).state =
      updateLastPhase (recordPhase T ({ s with reset_detection_count := 0 }) z).1 z := by
    simp only [monitorStep, hRz, hSPz]
  have hflagIz : (recordPhase T ({ s with reset_detection_count := 0 }) z).2.1 = false := by
    have heq : (monitorStep T s z).endedByInactivity =
        (recordPhase T ({ s with reset_detection_count := 0 }) z).2.1 := by
      simp only [monitorStep, hRz, hSPz]
    rw [← heq]
    exact hnoEnd
  have hQ : (recordPhase T ({ s with reset_detection_count := 0 }) z).1.workout_started = true
      ∧ (recordPhase T ({ s with reset_detection_count := 0 }) z).1.baseline = s.baseline
      ∧ (recordPhase T ({ s with reset_detection_count := 0 }) z).1.last_distance = s.last_distance
      ∧ (recordPhase T ({ s with reset_detection_count := 0 }) z).1.last_steps = s.last_steps
      ∧ (recordPhase T ({ s with reset_detection_count := 0 }) z).1.last_calories = s.last_calories
      ∧ (recordPhase T ({ s with reset_detection_count := 0 }) z).1.reset_detection_count = 0 := by
    by_cases hqi : inactiveQualifies ({ s with reset_detection_count := 0 }) z = true
    · by_cases hT2 : T ≤ s.zero_speed_count + 1
      · exfalso
        have := (recordPhase_end T ({ s with reset_detection_count := 0 }) z hact hqi hT2).2.2.2.2
        rw [this] at hflagIz
        cases hflagIz
      · have hb := recordPhase_below T ({ s with reset_detection_count := 0 }) z hact hqi
          (show s.zero_speed_count + 1 < T by omega)
        exact ⟨hb.2.2.1, hb.2.2.2.1, hb.2.2.2.2.1, hb.2.2.2.2.2.1, hb.2.2.2.2.2.2.1, hb.2.1⟩
    · have hb := recordPhase_not_qual T ({ s with reset_detection_count := 0 }) z hact
        (Bool.eq_false_iff.mpr hqi)
      exact ⟨hb.2.2.1, hb.2.2.2.1, hb.2.2.2.2.1, hb.2.2.2.2.2.1, hb.2.2.2.2.2.2.1, hb.2.1⟩
  have hup := updateLastPhase_preserves
    (recordPhase T ({ s with reset_detection_count := 0 }) z).1 z
  have hglitch := updateLastPhase_zero_glitch
    (recordPhase T ({ s with reset_detection_count := 0 }) z).1 z hQ.1 hz
  have hld : (monitorStep T s z).state.last_distance = s.last_distance := by
    rw [hstatez, hglitch.1, hQ.2.2.1]
  have hls : (monitorStep T s z).state.last_steps = s.last_steps := by
    rw [hstatez, hglitch.2.1, hQ.2.2.2.1]
  have hlc : (monitorStep T s z).state.last_calories = s.last_calories := by
    rw [hstatez, hglitch.2.2, hQ.2.2.2.2.1]
  have hbase : (monitorStep T s z).state.baseline = s.baseline := by
    rw [hstatez, hup.2.2.1, hQ.2.1]
  have hact2 : (monitorStep T s z).state.workout_started = true := by
    rw [hstatez, hup.1, hQ.1]
  have hrdc : (monitorStep T s z).state.reset_detection_count = 0 := by
    rw [hstatez, hup.2.1, hQ.2.2.2.2.2]
  refine ⟨⟨hld, hls, hlc, hbase, hact2⟩, ?_⟩
  have hnr2 : (monitorStep T (monitorStep T s z).state r).endedByReset = false := by
    by_cases hq2 : (distanceResetLike r.distance (monitorStep T s z).state.last_distance &&
        caloriesResetLike r.total_energy (monitorStep T s z).state.last_calories) = true
    · have hform := resetPhase_qualifying_below (monitorStep T s z).state r hact2 hq2
        (by omega)
      show (resetPhase (monitorStep T s z).state r).2.1 = false
      rw [hform]
    · have hform := resetPhase_not_qualifying (monitorStep T s z).state r hact2
        (Bool.eq_false_iff.mpr hq2)
      show (resetPhase (monitorStep T s z).state r).2.1 = false
      rw [hform]
  rw [monitorStep_recorded T (monitorStep T s z).state r hact2 hnr2,
    monitorStep_recorded T s r hact hnoReset, hbase,
    sanitizeData_congr (monitorStep T s z).state s r hld hls hlc]

/-- Claim C4 counterexample: injecting one all-zero glitch reading into an
active session yields a strictly longer stored-delta sequence than removing
it — the glitch itself is recorded as an extra sample — so the two
sequences are not equal. -/
theorem zero_glitch_counterexample :
    recordedDeltas 600 glitchDemoState [zeroGlitchReading, thirdReading] ≠
      recordedDeltas 600 glitchDemoState [thirdReading] := by
  have h1 : ¬((1 : ℚ) < 1/10) := by norm_num
  have h1i : ¬((1 : ℚ) < (10 : ℚ)⁻¹) := by norm_num
  simp [recordedDeltas, monitorRun, monitorStep, resetPhase, startPhase, recordPhase,
    updateLastPhase, sanitizeData, computeDeltas, inactiveQualifies, distanceResetLike,
    caloriesResetLike, glitchDemoState, zeroGlitchReading, thirdReading,
    TreadmillData.empty, h1, h1i]

/-- Witness for C1: a third simultaneous two-counter drop at 1 m/s. -/
theorem reset_path_characterization_witness :
    resetDemoState.workout_started = true
    ∧ ResetPathProp 60 resetDemoState resetDemoReading :=
  ⟨rfl, reset_path_characterization 60 resetDemoState resetDemoReading rfl⟩

/-- Witness for C3: a stopped belt with no counter progress, three samples
into the window with threshold 5. -/
theorem inactivity_hysteresis_witness :
    inactiveDemoState.workout_started = true
    ∧ (monitorStep 5 inactiveDemoState inactiveDemoReading).endedByReset = false
    ∧ InactivityProp 5 inactiveDemoState inactiveDemoReading :=
  ⟨rfl, rfl, inactivity_hysteresis 5 inactiveDemoState inactiveDemoReading rfl rfl⟩

/-- Witness for C4 as amended: the glitch demo state with the all-zero
reading and a normal follow-up reading. -/
theorem zero_glitch_amended_witness :
    glitchDemoState.workout_started = true
    ∧ cumFieldsZeroOrAbsent zeroGlitchReading
    ∧ (monitorStep 600 glitchDemoState zeroGlitchReading).endedByInactivity = false
    ∧ (monitorStep 600 glitchDemoState thirdReading).endedByReset = false
    ∧ ZeroGlitchProp 600 glitchDemoState zeroGlitchReading thirdReading := by
  have hz : cumFieldsZeroOrAbsent zeroGlitchReading := ⟨Or.inr rfl, Or.inr rfl, Or.inr rfl⟩
  have h2 : (monitorStep 600 glitchDemoState zeroGlitchReading).endedByInactivity = false := by
    have h1 : ¬((1 : ℚ) < 1/10) := by norm_num
    have h1i : ¬((1 : ℚ) < (10 : ℚ)⁻¹) := by norm_num
    simp [monitorStep, resetPhase, startPhase, recordPhase, updateLastPhase,
      glitchDemoState, zeroGlitchReading, distanceResetLike, caloriesResetLike, h1, h1i]
  have h4 : (monitorStep 600 glitchDemoState thirdReading).endedByReset = false := rfl
  exact ⟨rfl, hz, h2, h4,
    zero_glitch_amended 600 glitchDemoState zeroGlitchReading thirdReading rfl hz h2 h4⟩

/-- Witness for C2 as amended: the wraparound example (baseline 4000,
reading 50) matches the saturated claimed formula, giving 155. -/
theorem record_sample_delta_amended_witness :
    ({ TreadmillData.empty with distance := some 50 } : TreadmillData).distance = some 50
    ∧ (⟨some 4000, some 0, some 0⟩ : WorkoutBaseline).start_distance = some 4000
    ∧ (computeDeltas (some ⟨some 4000, some 0, some 0⟩)
        { TreadmillData.empty with distance := some 50 }).delta_distance =
      some (max 0 (claimedDelta 4105 1000 50 4000)) :=
  ⟨rfl, rfl, record_sample_delta_amended.1 ⟨some 4000, some 0, some 0⟩
    { TreadmillData.empty with distance := some 50 } 50 4000 rfl rfl⟩

/-- Witness for C10: the opening reading against its own baseline stores a
zero distance delta, which is non-negative. -/
theorem delta_sign_behaviour_witness :
    (computeDeltas (some ⟨some 50, some 100, some 5⟩) startReading).delta_distance = some 0
    ∧ (0 : ℤ) ≤ 0 :=
  ⟨by decide, (delta_sign_behaviour.1 (some ⟨some 50, some 100, some 5⟩) startReading 0).1
    (by decide)⟩
